import Mathlib

/-!
Verification of the SD3 model integration module
(`helpers/models/sd3/model.py`): prompt encoding with two CLIP encoders
and one T5 encoder, text-embedding formatting, LoRA adapter weight
routing, and user-configuration validation.

Tensors are embedded as nested lists of integers: the claims under
study concern shapes, zeroing by 0/1 attention masks, concatenation and
padding, none of which depend on floating-point rounding, so an exact
scalar type is faithful.
-/

set_option autoImplicit false

namespace SD3Spec

/-- A vector: a tensor of rank 1 (the hidden dimension). -/
abbrev Tensor1 := List Int

/-- A rank-2 tensor, e.g. `[seq, hidden]` or `[batch, width]`. -/
abbrev Tensor2 := List Tensor1

/-- A rank-3 tensor `[batch, seq, hidden]`. -/
abbrev Tensor3 := List Tensor2

/-- Shape predicate for a rank-2 tensor: `a` rows, each of length `b`. -/
abbrev Shape2 (t : Tensor2) (a b : Nat) : Prop :=
  t.length = a ∧ ∀ r ∈ t, r.length = b

/-- Shape predicate for a rank-3 tensor `[a, b, c]`. -/
abbrev Shape3 (t : Tensor3) (a b c : Nat) : Prop :=
  t.length = a ∧ ∀ m ∈ t, Shape2 m b c

/-- Size of dimension 1 of a rank-3 tensor (`t.shape[1]`), read off the
first batch element as torch does for a rectangular tensor. -/
def dim1 (t : Tensor3) : Nat := (t.headD []).length

/-- Size of the last dimension of a rank-3 tensor (`t.shape[-1]`). -/
def dim2 (t : Tensor3) : Nat := ((t.headD []).headD []).length

/-- Element access with defaults: `t[i][j][k]`, `0` when out of range. -/
def getD3 (t : Tensor3) (i j k : Nat) : Int := ((t.getD i []).getD j []).getD k 0

/-- Embedding of `x.repeat(1, n, 1)`: tile along dimension 1. -/
def repeatDim1 (n : Nat) (t : Tensor3) : Tensor3 :=
  t.map (fun m => (List.replicate n m).flatten)

/-- Helper for `view3`: regroup a flat list of rows into chunks of `s`
rows; the fuel argument bounds the recursion. -/
def chunkRows (s : Nat) : Nat → Tensor2 → Tensor3
  | 0, _ => []
  | _ + 1, [] => []
  | fuel + 1, rows => rows.take s :: chunkRows s fuel (rows.drop s)

/-- Embedding of `x.view(b * n, s, -1)` applied to a rank-3 tensor:
flatten the batch and sequence dimensions and regroup rows into
matrices of `s` rows each (the `-1` keeps rows intact). -/
def view3 (s : Nat) (t : Tensor3) : Tensor3 :=
  chunkRows s t.flatten.length t.flatten

/-- Embedding of `embeds * mask.unsqueeze(-1).expand(embeds.shape)`:
multiply every hidden vector by its position's attention-mask value. -/
def applyAttentionMask (embeds : Tensor3) (mask : Tensor2) : Tensor3 :=
  List.zipWith (fun m mrow => List.zipWith (fun row v => row.map (fun x => x * v)) m mrow)
    embeds mask

/-- Embedding of `torch.cat([a, b], dim=-1)` on rank-3 tensors. -/
def catLastDim3 (a b : Tensor3) : Tensor3 :=
  List.zipWith (fun ma mb => List.zipWith (fun ra rb => ra ++ rb) ma mb) a b

/-- Embedding of `torch.cat([a, b], dim=-1)` on rank-2 tensors. -/
def catLastDim2 (a b : Tensor2) : Tensor2 :=
  List.zipWith (fun ra rb => ra ++ rb) a b

/-- Embedding of `torch.cat([a, b], dim=-2)` on rank-3 tensors:
per batch element, concatenate along the sequence (row) axis. -/
def catSeqDim (a b : Tensor3) : Tensor3 :=
  List.zipWith (fun ma mb => ma ++ mb) a b

/-- Embedding of `torch.nn.functional.pad(t, (0, d))` on the last
dimension: append `d` zeros when `d ≥ 0`, drop the trailing `-d`
entries when `d < 0` (torch's negative-padding semantics). -/
def fpadLast (d : Int) (t : Tensor3) : Tensor3 :=
  t.map (fun m => m.map (fun row =>
    if 0 ≤ d then row ++ List.replicate d.toNat 0
    else row.take (row.length - (-d).toNat)))

/-- A tokenizer, called with `padding="max_length"`, `truncation=True`:
for a batch of prompts and a max length it yields the padded token-id
rows and the 0/1 attention-mask rows. -/
structure Tokenizer where
  inputIds : List String → Nat → List (List Nat)
  attnMask : List String → Nat → Tensor2

/-- Contract of an external tokenizer (documented tensor-out shape):
one row per prompt, every row padded to exactly the max length. -/
structure TokenizerWF (tok : Tokenizer) : Prop where
  ids_len : ∀ ps L, (tok.inputIds ps L).length = ps.length
  ids_row : ∀ ps L, ∀ r ∈ tok.inputIds ps L, r.length = L
  mask_len : ∀ ps L, (tok.attnMask ps L).length = ps.length
  mask_row : ∀ ps L, ∀ r ∈ tok.attnMask ps L, r.length = L

/-- A CLIP-family text encoder called with `output_hidden_states=True`:
`pooled` is the primary output (`prompt_embeds[0]`), `hiddenPenult` the
second-to-last hidden-state layer (`prompt_embeds.hidden_states[-2]`). -/
structure CLIPEncoder where
  hiddenPenult : List (List Nat) → Tensor3
  pooled : List (List Nat) → Tensor2
  width : Nat
  poolWidth : Nat

/-- Contract of an external CLIP encoder: on a batch of token rows of
uniform length the sequence output is `[batch, len, width]` and the
pooled output is `[batch, poolWidth]`. -/
structure CLIPEncoderWF (enc : CLIPEncoder) : Prop where
  hidden_shape : ∀ ids L, (∀ r ∈ ids, r.length = L) →
    Shape3 (enc.hiddenPenult ids) ids.length L enc.width
  pooled_shape : ∀ ids, Shape2 (enc.pooled ids) ids.length enc.poolWidth

/-- A T5-family text encoder: `encode` is the primary output
(`text_encoder(input_ids)[0]`), of shape `[batch, len, width]`. -/
structure T5Encoder where
  encode : List (List Nat) → Tensor3
  width : Nat

/-- Contract of an external T5 encoder: on a batch of token rows of
uniform length the output is `[batch, len, width]`. -/
structure T5EncoderWF (enc : T5Encoder) : Prop where
  shape : ∀ ids L, (∀ r ∈ ids, r.length = L) →
    Shape3 (enc.encode ids) ids.length L enc.width

/-- Embedding of `_encode_sd3_prompt_with_t5` (model.py lines 14-53).
The `.to(dtype, device)` casts are value-preserving and dropped. -/
def encode_sd3_prompt_with_t5 (text_encoder : T5Encoder) (tokenizer : Tokenizer)
    (prompt : List String) (num_images_per_prompt : Nat)
    (zero_padding_tokens : Bool) (max_sequence_length : Nat) : Tensor3 :=
  let text_input_ids := tokenizer.inputIds prompt max_sequence_length
  let prompt_embeds := text_encoder.encode text_input_ids
  let seq_len := dim1 prompt_embeds
  let prompt_embeds := view3 seq_len (repeatDim1 num_images_per_prompt prompt_embeds)
  let attention_mask := tokenizer.attnMask prompt max_sequence_length
  if zero_padding_tokens then
    applyAttentionMask prompt_embeds attention_mask
  else
    prompt_embeds

/-- Embedding of `_encode_sd3_prompt_with_clip` (model.py lines 55-85). -/
def encode_sd3_prompt_with_clip (text_encoder : CLIPEncoder) (tokenizer : Tokenizer)
    (prompt : List String) (num_images_per_prompt : Nat)
    (max_token_length : Nat) : Tensor3 × Tensor2 :=
  let text_input_ids := tokenizer.inputIds prompt max_token_length
  let pooled_prompt_embeds := text_encoder.pooled text_input_ids
  let prompt_embeds := text_encoder.hiddenPenult text_input_ids
  let seq_len := dim1 prompt_embeds
  let prompt_embeds := view3 seq_len (repeatDim1 num_images_per_prompt prompt_embeds)
  (prompt_embeds, pooled_prompt_embeds)

/-- Encode-time configuration slice used by `_encode_prompts`.  At this
point of the run the validator has already ensured
`tokenizer_max_length` holds a concrete integer, so it is a `Nat`
here; the validator itself is modelled separately on the full
option-valued field. -/
structure EncodeConfig where
  t5_padding : String
  tokenizer_max_length : Nat

/-- Embedding of `True if self.config.t5_padding == "zero" else False`
(model.py lines 199-201). -/
def zero_padding_tokens_of (cfg : EncodeConfig) : Bool :=
  if cfg.t5_padding == "zero" then true else false

/-- The three tokenizer / text-encoder pairs of the SD3 foundation
object, in roster order: CLIP-L/14, CLIP-G/14, T5 XXL v1.1
(`TEXT_ENCODER_CONFIGURATION`, model.py lines 110-131). -/
structure SD3TextStack where
  tokenizer : Tokenizer
  tokenizer_2 : Tokenizer
  tokenizer_3 : Tokenizer
  text_encoder : CLIPEncoder
  text_encoder_2 : CLIPEncoder
  text_encoder_3 : T5Encoder

/-- Embedding of `SD3._encode_prompts` (model.py lines 165-218).  The
loop over `zip(clip_tokenizers, clip_text_encoders)` runs over exactly
the two CLIP pairs and is unrolled; `num_images_per_prompt` is fixed
to 1 as in the source; the CLIP calls use the source's default
`max_token_length = 77`. -/
def encode_prompts (S : SD3TextStack) (cfg : EncodeConfig) (prompts : List String) :
    Tensor3 × Tensor2 :=
  let num_images_per_prompt := 1
  let (pe1, pp1) :=
    encode_sd3_prompt_with_clip S.text_encoder S.tokenizer prompts num_images_per_prompt 77
  let (pe2, pp2) :=
    encode_sd3_prompt_with_clip S.text_encoder_2 S.tokenizer_2 prompts num_images_per_prompt 77
  let clip_prompt_embeds := catLastDim3 pe1 pe2
  let pooled_prompt_embeds := catLastDim2 pp1 pp2
  let zero_padding_tokens := zero_padding_tokens_of cfg
  let t5_prompt_embed :=
    encode_sd3_prompt_with_t5 S.text_encoder_3 S.tokenizer_3 prompts
      num_images_per_prompt zero_padding_tokens cfg.tokenizer_max_length
  let clip_prompt_embeds :=
    fpadLast ((dim2 t5_prompt_embed : Int) - (dim2 clip_prompt_embeds : Int)) clip_prompt_embeds
  (catSeqDim clip_prompt_embeds t5_prompt_embed, pooled_prompt_embeds)

/-!
Text-embedding formatters.  These manipulate whole tensors of
arbitrary rank (`squeeze(0)` / `unsqueeze(0)`), so they are embedded
over a rank-generic tensor type.
-/

/-- A tensor of arbitrary rank, as a rose tree of integer scalars. -/
inductive PyTensor where
  | scalar : Int → PyTensor
  | tensor : List PyTensor → PyTensor

/-- Embedding of `t.squeeze(0)`: remove dimension 0 when its size is 1,
otherwise return the tensor unchanged. -/
def PyTensor.squeeze0 : PyTensor → PyTensor
  | .tensor [t] => t
  | t => t

/-- Embedding of `t.unsqueeze(0)`: add a leading dimension of size 1. -/
def PyTensor.unsqueeze0 (t : PyTensor) : PyTensor := .tensor [t]

/-- The stored / pipeline text-embedding bundle: a dict with keys
`prompt_embeds` and `pooled_prompt_embeds`. -/
structure TextEmbedBundle where
  prompt_embeds : PyTensor
  pooled_prompt_embeds : PyTensor

/-- Embedding of `SD3._format_text_embedding` (model.py lines 133-149):
package the pair as a dict, squeezing dimension 0 of the pooled
embedding. -/
def format_text_embedding (text_embedding : PyTensor × PyTensor) : TextEmbedBundle :=
  let (prompt_embeds, pooled_prompt_embeds) := text_embedding
  { prompt_embeds := prompt_embeds
    pooled_prompt_embeds := pooled_prompt_embeds.squeeze0 }

/-- Embedding of `SD3.convert_text_embed_for_pipeline` (model.py lines
151-156): unsqueeze dimension 0 of both stored tensors. -/
def convert_text_embed_for_pipeline (text_embedding : TextEmbedBundle) : TextEmbedBundle :=
  { prompt_embeds := text_embedding.prompt_embeds.unsqueeze0
    pooled_prompt_embeds := text_embedding.pooled_prompt_embeds.unsqueeze0 }

/-- Embedding of `SD3.convert_negative_text_embed_for_pipeline`
(model.py lines 158-163); the result keys carry a `negative_` prefix
in the source but hold the same two tensors. -/
def convert_negative_text_embed_for_pipeline (text_embedding : TextEmbedBundle) :
    TextEmbedBundle :=
  { prompt_embeds := text_embedding.prompt_embeds.unsqueeze0
    pooled_prompt_embeds := text_embedding.pooled_prompt_embeds.unsqueeze0 }

/-!
Configuration validator (`check_user_config`, model.py lines 318-353).
Log calls are modelled by accumulating `(level, message)` pairs in
emission order; `raise ValueError` is modelled by `Except.error`.
-/

/-- Log level of an emitted logger call. -/
inductive LogLevel where
  | info : LogLevel
  | warning : LogLevel
deriving DecidableEq, Repr

/-- One emitted log record: level and message text. -/
abbrev LogMsg := LogLevel × String

/-- The configuration fields touched by `check_user_config`.
`tokenizer_max_length` is option-valued (`None` or an integer) as in
the source at validation time. -/
structure Config where
  base_model_precision : String
  tokenizer_max_length : Option Int
  i_know_what_i_am_doing : Bool
  pretrained_vae_model_name_or_path : Option String
  disable_compel : Bool
  aspect_bucket_alignment : Int
  sd3_t5_uncond_behaviour : Option String
  sd3_clip_uncond_behaviour : Option String
deriving DecidableEq, Repr

/-- Python's rendering of the option-valued behaviour strings inside
the final f-string log line. -/
def optStr : Option String → String
  | none => "None"
  | some s => s

/-- Message of the fatal fp8-quanto configuration error. -/
def msg_fp8_quanto : String :=
  "SD3 does not support fp8-quanto. Please use fp8-torchao or int8 precision level instead."

/-- Message logged when the T5 tokenizer max length is clamped. -/
def msg_clamp (t5_max_length : Int) : String :=
  "Updating T5 XXL tokeniser max length to " ++ toString t5_max_length ++ " for SD3."

/-- First warning logged when the clamp is overridden. -/
def msg_override_1 (t5_max_length : Int) : String :=
  "-!- SD3 supports a max length of " ++ toString t5_max_length ++
    " tokens, but you have supplied `--i_know_what_i_am_doing`, so this limit will not be enforced. -!-"

/-- Second warning logged when the clamp is overridden. -/
def msg_override_2 (t5_max_length : Int) : String :=
  "The model will begin to collapse after a short period of time, if the model you are continuing from has not been tuned beyond " ++
    toString t5_max_length ++ " tokens."

/-- Warning logged when the aspect-bucket alignment is overridden. -/
def msg_alignment : String :=
  "MM-DiT requires an alignment value of 64px. Overriding the value of --aspect_bucket_alignment."

/-- Final informational log line of `check_user_config`. -/
def msg_uncond (t5 clip : Option String) : String :=
  "SD3 embeds for unconditional captions: t5=" ++ optStr t5 ++ ", clip=" ++ optStr clip

/-- The clamp test of model.py line 327:
`self.config.tokenizer_max_length is None or
int(self.config.tokenizer_max_length) > t5_max_length`. -/
def tokenizer_len_needs_clamp (tml : Option Int) (t5_max_length : Int) : Bool :=
  match tml with
  | none => true
  | some v => v > t5_max_length

/-- T5 tokenizer max-length clamp step of `check_user_config`
(model.py lines 326-339): clamp to 154 unless the override flag is
set, in which case two warnings are emitted instead. -/
def apply_t5_clamp (cfg : Config) : Config × List LogMsg :=
  let t5_max_length : Int := 154
  if tokenizer_len_needs_clamp cfg.tokenizer_max_length t5_max_length then
    if ¬ cfg.i_know_what_i_am_doing then
      ({ cfg with tokenizer_max_length := some t5_max_length },
        [(LogLevel.warning, msg_clamp t5_max_length)])
    else
      (cfg, [(LogLevel.warning, msg_override_1 t5_max_length),
             (LogLevel.warning, msg_override_2 t5_max_length)])
  else (cfg, [])

/-- Autoencoder / Compel step of `check_user_config` (model.py lines
340-343): clear the custom autoencoder path and disable Compel. -/
def apply_vae_compel (cfg : Config) : Config :=
  { cfg with pretrained_vae_model_name_or_path := none, disable_compel := true }

/-- Aspect-bucket alignment step of `check_user_config` (model.py
lines 344-348): force the alignment to 64, warning when the supplied
value differed. -/
def apply_alignment (cfg : Config) : Config × List LogMsg :=
  if cfg.aspect_bucket_alignment ≠ 64 then
    ({ cfg with aspect_bucket_alignment := 64 }, [(LogLevel.warning, msg_alignment)])
  else (cfg, [])

/-- T5 unconditional-caption default step of `check_user_config`
(model.py lines 349-350). -/
def apply_t5_uncond (cfg : Config) : Config :=
  if cfg.sd3_t5_uncond_behaviour = none then
    { cfg with sd3_t5_uncond_behaviour := cfg.sd3_clip_uncond_behaviour }
  else cfg

/-- Embedding of `SD3.check_user_config` (model.py lines 318-353),
mutating the configuration step by step in source order and emitting
log records in emission order. -/
def check_user_config (cfg : Config) : Except String (Config × List LogMsg) :=
  if cfg.base_model_precision = "fp8-quanto" then
    .error msg_fp8_quanto
  else
    let r1 := apply_t5_clamp cfg
    let cfg3 := apply_vae_compel r1.1
    let r2 := apply_alignment cfg3
    let cfg5 := apply_t5_uncond r2.1
    let logs3 :=
      [(LogLevel.info, msg_uncond cfg5.sd3_t5_uncond_behaviour cfg5.sd3_clip_uncond_behaviour)]
    .ok (cfg5, r1.2 ++ r2.2 ++ logs3)

/-!
Adapter state router (`load_lora_weights`, model.py lines 247-316).
Sub-models are values carrying their (wrapped and unwrapped) class
names, the key schema of their adapter parameters, and the adapter
weights currently applied to them; `isinstance` is a subclass check
supplied as a relation on class names.
-/

/-- A state dict: a checkpoint mapping from parameter key to tensor
(here a single integer stands for the tensor payload). -/
abbrev StateDict := List (String × Int)

/-- One in-training sub-model from the orchestrator's roster. -/
structure SavedModel where
  wrappedCls : String
  unwrappedCls : String
  adapterKeys : List String
  adapters : List (String × StateDict)
deriving DecidableEq, Repr

/-- The named slots filled while draining the roster
(`transformer_`, `text_encoder_one_`, `text_encoder_two_`,
`denoiser`; model.py lines 248-252). -/
structure Slots where
  transformer_ : Option SavedModel
  text_encoder_one_ : Option SavedModel
  text_encoder_two_ : Option SavedModel
  denoiser : Option SavedModel
deriving DecidableEq, Repr

/-- The slots object with every slot still `None`. -/
def Slots.empty : Slots := ⟨none, none, none, none⟩

/-- Destination slot of a roster entry. -/
inductive SubModelSlot where
  | denoiserSlot : SubModelSlot
  | teOneSlot : SubModelSlot
  | teTwoSlot : SubModelSlot
deriving DecidableEq, Repr

/-- Embedding of Python's `str.startswith`. -/
def pyStartsWith (s pre : String) : Bool :=
  pre.data.isPrefixOf s.data

/-- Character-level worker for `pyReplace`; the fuel argument bounds
the recursion by the length of the subject string. -/
def replaceChars (pat rep : List Char) : Nat → List Char → List Char
  | _, [] => []
  | 0, s => s
  | fuel + 1, c :: cs =>
    if pat ≠ [] ∧ pat.isPrefixOf (c :: cs) then
      rep ++ replaceChars pat rep fuel ((c :: cs).drop pat.length)
    else
      c :: replaceChars pat rep fuel cs

/-- Embedding of Python's `str.replace(pat, rep)`: every
non-overlapping occurrence of `pat` is replaced left to right. -/
def pyReplace (s pat rep : String) : String :=
  ⟨replaceChars pat.data rep.data s.data.length s.data⟩

/-- The `isinstance` chain of model.py lines 257-272, as a function of
the entry's unwrapped class alone: first match among the unwrapped
reference classes wins, `none` when no reference class matches.
`sub a b` reads: class `a` is (a subclass of) class `b`. -/
def classify_one (sub : String → String → Bool) (refT refE1 refE2 : String)
    (m : SavedModel) : Option SubModelSlot :=
  if sub m.unwrappedCls refT then some SubModelSlot.denoiserSlot
  else if sub m.unwrappedCls refE1 then some SubModelSlot.teOneSlot
  else if sub m.unwrappedCls refE2 then some SubModelSlot.teTwoSlot
  else none

/-- Message of the `ValueError` raised for an unclassifiable roster
entry (model.py lines 273-278); it carries the entry's wrapped and
unwrapped class names and the trained component's class name. -/
def classification_error_msg (m : SavedModel) (refT : String) : String :=
  "unexpected save model: " ++ m.wrappedCls ++
    "\nunwrapped: " ++ m.unwrappedCls ++
    "\nunet: " ++ refT

/-- Worker of the roster drain loop, processing entries in pop order
(so on the reversed roster); on an unclassifiable entry it stops and
returns the not-yet-popped entries in their original order. -/
def classifyGo (sub : String → String → Bool) (refT refE1 refE2 : String) :
    List SavedModel → Slots → List SavedModel × Slots × Option String
  | [], slots => ([], slots, none)
  | model :: rest, slots =>
    if sub model.unwrappedCls refT then
      classifyGo sub refT refE1 refE2 rest
        { slots with transformer_ := some model, denoiser := some model }
    else if sub model.unwrappedCls refE1 then
      classifyGo sub refT refE1 refE2 rest
        { slots with text_encoder_one_ := some model }
    else if sub model.unwrappedCls refE2 then
      classifyGo sub refT refE1 refE2 rest
        { slots with text_encoder_two_ := some model }
    else
      (rest.reverse, slots, some (classification_error_msg model refT))

/-- Embedding of the roster drain loop (model.py lines 254-278):
`models.pop()` removes the last entry, so entries are processed last
to first; a classified entry is stored in its slot (the transformer
entry also in `denoiser`); an entry matching no reference class stops
the loop with the `ValueError` message.  Returns the remaining roster,
the slots, and the raised error if any. -/
def classify_models (sub : String → String → Bool) (refT refE1 refE2 : String)
    (models : List SavedModel) (slots : Slots) :
    List SavedModel × Slots × Option String :=
  classifyGo sub refT refE1 refE2 models.reverse slots

/-- Modelled from the spec: the external `set_peft_model_state_dict`
(peft) adapter-state setter.  It applies, under the given adapter
name, the entries whose keys the sub-model's adapter schema knows, and
reports the remaining keys as `unexpected_keys` (missing keys are not
checked). -/
def set_peft_model_state_dict (m : SavedModel) (sd : StateDict)
    (adapter_name : String) : SavedModel × List String :=
  let applied := sd.filter (fun kv => m.adapterKeys.contains kv.1)
  let unexpected := (sd.filter (fun kv => ¬ m.adapterKeys.contains kv.1)).map Prod.fst
  ({ m with adapters := (adapter_name, applied) :: m.adapters }, unexpected)

/-- Modelled from the spec: the external
`_set_state_dict_into_text_encoder` (diffusers) setter, which injects
the unfiltered checkpoint mapping into a text encoder using the given
namespace prefix and performs its own filtering internally. -/
def set_state_dict_into_text_encoder (sd : StateDict) (pref : String)
    (m : SavedModel) : SavedModel :=
  let sliced := (sd.filter (fun kv => pyStartsWith kv.1 pref)).map
    (fun kv => (kv.1.drop pref.length, kv.2))
  { m with adapters := ("default", sliced) :: m.adapters }

/-- The denoiser's checkpoint namespace token: `MODEL_SUBFOLDER`
(model.py line 102), read through `self.model.MODEL_SUBFOLDER` at line
280. -/
def MODEL_SUBFOLDER : String := "transformer"

/-- Warning message logged for unexpected adapter keys (model.py lines
297-300). -/
def msg_unexpected_keys (unexpected : List String) : String :=
  "Loading adapter weights from state_dict led to unexpected keys not found in the model: " ++
    String.intercalate ", " unexpected ++ ". "

/-- Outcome of `load_lora_weights`: the drained roster, the slot
contents after any weight application, the warnings logged, and the
raised exception if any (fields hold the state at the raise point). -/
structure LoadResult where
  models : List SavedModel
  transformer_ : Option SavedModel
  text_encoder_one_ : Option SavedModel
  text_encoder_two_ : Option SavedModel
  denoiser : Option SavedModel
  warnings : List String
  error : Option String
deriving DecidableEq, Repr

/-- Embedding of `SD3.load_lora_weights` (model.py lines 247-316).
Parameters stand for the enclosing object's state: `sub` the subclass
relation, `refT refE1 refE2` the unwrapped reference class names of
the trained transformer and the two text encoders, `convert_key` the
key rewrite performed by the external
`convert_unet_state_dict_to_peft` (modelled from the spec: a pure
string-rewrite step, no tensor change), `train_text_encoder` the
`self.args.train_text_encoder` flag, and `lora_state_dict` the
checkpoint mapping read from the input directory.  A `None` denoiser
slot at application time is modelled as a raised error, as the
external setter cannot accept it. -/
def load_lora_weights (sub : String → String → Bool) (refT refE1 refE2 : String)
    (convert_key : String → String) (train_text_encoder : Bool)
    (lora_state_dict : StateDict) (models : List SavedModel) : LoadResult :=
  let (models', slots, err) := classify_models sub refT refE1 refE2 models Slots.empty
  match err with
  | some e =>
    { models := models', transformer_ := slots.transformer_,
      text_encoder_one_ := slots.text_encoder_one_,
      text_encoder_two_ := slots.text_encoder_two_,
      denoiser := slots.denoiser, warnings := [], error := some e }
  | none =>
    let key_to_replace := MODEL_SUBFOLDER
    let denoiser_state_dict :=
      (lora_state_dict.filter (fun kv => pyStartsWith kv.1 (key_to_replace ++ "."))).map
        (fun kv => (pyReplace kv.1 (key_to_replace ++ ".") "", kv.2))
    let denoiser_state_dict := denoiser_state_dict.map (fun kv => (convert_key kv.1, kv.2))
    match slots.denoiser with
    | none =>
      { models := models', transformer_ := slots.transformer_,
        text_encoder_one_ := slots.text_encoder_one_,
        text_encoder_two_ := slots.text_encoder_two_,
        denoiser := none, warnings := [],
        error := some "set_peft_model_state_dict received a None module" }
    | some d =>
      let (d', unexpected_keys) := set_peft_model_state_dict d denoiser_state_dict "default"
      let warnings :=
        if unexpected_keys ≠ [] then [msg_unexpected_keys unexpected_keys] else []
      let te1 :=
        if train_text_encoder then
          slots.text_encoder_one_.map
            (set_state_dict_into_text_encoder lora_state_dict "text_encoder.")
        else slots.text_encoder_one_
      let te2 :=
        if train_text_encoder then
          slots.text_encoder_two_.map
            (set_state_dict_into_text_encoder lora_state_dict "text_encoder_2.")
        else slots.text_encoder_two_
      { models := models', transformer_ := slots.transformer_,
        text_encoder_one_ := te1, text_encoder_two_ := te2,
        denoiser := some d', warnings := warnings, error := none }

/-- Key rewrite as the specification words it for the denoiser slice:
the namespace prefix (token followed by a dot) is stripped from the
front of the key.  Kept separate from the source embedding, which uses
Python's `str.replace` on every occurrence, to compare the two. -/
def strip_namespace_token (token : String) (k : String) : String :=
  k.drop (token ++ ".").length

/-!
Concrete instances used by the witness theorems.
-/

/-- A concrete tokenizer: every prompt becomes `L` copies of token 1;
its attention mask marks exactly one true token, the rest padding. -/
def demoTokenizer : Tokenizer where
  inputIds := fun ps L => ps.map (fun _ => List.replicate L 1)
  attnMask := fun ps L => ps.map (fun _ => List.replicate (min 1 L) 1 ++ List.replicate (L - 1) 0)

/-- A concrete CLIP encoder of the given widths with constant outputs. -/
def demoCLIP (w p : Nat) : CLIPEncoder where
  hiddenPenult := fun ids => ids.map (fun r => r.map (fun _ => List.replicate w 7))
  pooled := fun ids => ids.map (fun _ => List.replicate p 9)
  width := w
  poolWidth := p

/-- A concrete T5 encoder of the given width with constant outputs. -/
def demoT5 (w : Nat) : T5Encoder where
  encode := fun ids => ids.map (fun r => r.map (fun _ => List.replicate w 4))
  width := w

/-- A concrete SD3 text stack: CLIP widths 2 and 3, pooled widths 3 and
4, T5 width 6. -/
def demoStack : SD3TextStack where
  tokenizer := demoTokenizer
  tokenizer_2 := demoTokenizer
  tokenizer_3 := demoTokenizer
  text_encoder := demoCLIP 2 3
  text_encoder_2 := demoCLIP 3 4
  text_encoder_3 := demoT5 6

/-- Subclass relation used in witnesses: exact class-name equality. -/
def subEq : String → String → Bool := fun a b => a == b

/-- A concrete denoiser roster entry. -/
def demoDenoiser : SavedModel where
  wrappedCls := "DistributedDataParallel"
  unwrappedCls := "SD3Transformer2DModel"
  adapterKeys := ["a.b", "a.transformer.b", "blocks.0.lora_A"]
  adapters := []

/-- A second concrete denoiser-typed roster entry. -/
def demoDenoiser2 : SavedModel where
  wrappedCls := "SD3Transformer2DModel"
  unwrappedCls := "SD3Transformer2DModel"
  adapterKeys := []
  adapters := []

/-- A concrete first-text-encoder roster entry. -/
def demoTE1 : SavedModel where
  wrappedCls := "CLIPTextModelWithProjection"
  unwrappedCls := "CLIPTextModelWithProjection"
  adapterKeys := []
  adapters := []

/-- A concrete roster entry matching none of the reference classes. -/
def demoStray : SavedModel where
  wrappedCls := "AutoencoderKL"
  unwrappedCls := "AutoencoderKL"
  adapterKeys := []
  adapters := []

/-- Unwrapped reference class name of the trained transformer in the
witnesses. -/
def refTransformer : String := "SD3Transformer2DModel"

/-- Unwrapped reference class name of the first text encoder in the
witnesses. -/
def refTE1 : String := "CLIPTextModelWithProjection"

/-- Unwrapped reference class name of the second text encoder in the
witnesses; for SD3 both text encoders share the class. -/
def refTE2 : String := "CLIPTextModelWithProjection"

/-!
Theorems.
-/

/-- C5: for every text-embedding bundle, the storage formatter followed
by the positive-pipeline formatter reproduces the original tensors
unchanged up to an added leading batch dimension: `prompt_embeds`
always gains exactly one leading size-1 dimension, and
`pooled_prompt_embeds` comes back unchanged when its dimension 0 had
size 1 (the squeeze removed it and the unsqueeze restored it), and
with one added leading dimension otherwise. -/
theorem C5_format_round_trip (pe pooled : PyTensor) :
    (convert_text_embed_for_pipeline (format_text_embedding (pe, pooled))).prompt_embeds
        = pe.unsqueeze0 ∧
    ((∃ x, pooled = PyTensor.tensor [x]) →
      (convert_text_embed_for_pipeline
          (format_text_embedding (pe, pooled))).pooled_prompt_embeds = pooled) ∧
    ((¬ ∃ x, pooled = PyTensor.tensor [x]) →
      (convert_text_embed_for_pipeline
          (format_text_embedding (pe, pooled))).pooled_prompt_embeds = pooled.unsqueeze0) := by
  refine ⟨rfl, ?_, ?_⟩
  · rintro ⟨x, rfl⟩
    rfl
  · intro h
    match pooled with
    | .scalar x => rfl
    | .tensor [] => rfl
    | .tensor [t] => exact absurd ⟨t, rfl⟩ h
    | .tensor (a :: b :: r) => rfl

/-- Witness for C5 at a concrete bundle whose pooled tensor has a
leading dimension of size 1. -/
theorem C5_format_round_trip_witness :
    (convert_text_embed_for_pipeline (format_text_embedding
        (PyTensor.scalar 3, PyTensor.tensor [PyTensor.scalar 4]))).prompt_embeds
      = (PyTensor.scalar 3).unsqueeze0 ∧
    (convert_text_embed_for_pipeline (format_text_embedding
        (PyTensor.scalar 3, PyTensor.tensor [PyTensor.scalar 4]))).pooled_prompt_embeds
      = PyTensor.tensor [PyTensor.scalar 4] :=
  ⟨(C5_format_round_trip (PyTensor.scalar 3) (PyTensor.tensor [PyTensor.scalar 4])).1,
   (C5_format_round_trip (PyTensor.scalar 3) (PyTensor.tensor [PyTensor.scalar 4])).2.1
     ⟨PyTensor.scalar 4, rfl⟩⟩

/-- When the precision gate passes, `check_user_config` succeeds and
its result is the composition of the four mutation steps, with the
logs in emission order. -/
theorem check_user_config_eq (cfg : Config)
    (hprec : cfg.base_model_precision ≠ "fp8-quanto") :
    check_user_config cfg =
      .ok (apply_t5_uncond (apply_alignment (apply_vae_compel (apply_t5_clamp cfg).1)).1,
        (apply_t5_clamp cfg).2 ++ (apply_alignment (apply_vae_compel (apply_t5_clamp cfg).1)).2 ++
          [(LogLevel.info,
            msg_uncond
              (apply_t5_uncond (apply_alignment (apply_vae_compel (apply_t5_clamp cfg).1)).1).sd3_t5_uncond_behaviour
              (apply_t5_uncond (apply_alignment (apply_vae_compel (apply_t5_clamp cfg).1)).1).sd3_clip_uncond_behaviour)]) := by
  unfold check_user_config
  rw [if_neg hprec]

/-- The clamp step never touches any configuration field other than
`tokenizer_max_length`. -/
theorem apply_t5_clamp_frame (cfg : Config) :
    (apply_t5_clamp cfg).1.base_model_precision = cfg.base_model_precision ∧
    (apply_t5_clamp cfg).1.i_know_what_i_am_doing = cfg.i_know_what_i_am_doing ∧
    (apply_t5_clamp cfg).1.pretrained_vae_model_name_or_path = cfg.pretrained_vae_model_name_or_path ∧
    (apply_t5_clamp cfg).1.disable_compel = cfg.disable_compel ∧
    (apply_t5_clamp cfg).1.aspect_bucket_alignment = cfg.aspect_bucket_alignment ∧
    (apply_t5_clamp cfg).1.sd3_t5_uncond_behaviour = cfg.sd3_t5_uncond_behaviour ∧
    (apply_t5_clamp cfg).1.sd3_clip_uncond_behaviour = cfg.sd3_clip_uncond_behaviour := by
  unfold apply_t5_clamp
  cases hc : tokenizer_len_needs_clamp cfg.tokenizer_max_length 154 <;>
    cases hik : cfg.i_know_what_i_am_doing <;> simp [hc, hik]

/-- A `tokenizer_max_length` within the limit passes the clamp step
unchanged and without logging. -/
theorem apply_t5_clamp_small (cfg : Config) (v : Int)
    (h : cfg.tokenizer_max_length = some v) (hv : v ≤ 154) :
    apply_t5_clamp cfg = (cfg, []) := by
  have hc : tokenizer_len_needs_clamp cfg.tokenizer_max_length 154 = false := by
    rw [h]
    simp only [tokenizer_len_needs_clamp, decide_eq_false_iff_not, not_lt, gt_iff_lt]
    exact hv
  unfold apply_t5_clamp
  simp [hc]

/-- An over-limit `tokenizer_max_length` without the override flag is
clamped to 154, with one notice logged. -/
theorem apply_t5_clamp_over_noflag (cfg : Config) (v : Int)
    (h : cfg.tokenizer_max_length = some v) (hv : 154 < v)
    (hik : cfg.i_know_what_i_am_doing = false) :
    apply_t5_clamp cfg =
      ({ cfg with tokenizer_max_length := some 154 },
        [(LogLevel.warning, msg_clamp 154)]) := by
  have hc : tokenizer_len_needs_clamp cfg.tokenizer_max_length 154 = true := by
    rw [h]
    simpa [tokenizer_len_needs_clamp] using hv
  unfold apply_t5_clamp
  simp [hc, hik]

/-- An over-limit `tokenizer_max_length` with the override flag is
kept, with exactly the two override warnings logged. -/
theorem apply_t5_clamp_over_flag (cfg : Config) (v : Int)
    (h : cfg.tokenizer_max_length = some v) (hv : 154 < v)
    (hik : cfg.i_know_what_i_am_doing = true) :
    apply_t5_clamp cfg =
      (cfg, [(LogLevel.warning, msg_override_1 154),
             (LogLevel.warning, msg_override_2 154)]) := by
  have hc : tokenizer_len_needs_clamp cfg.tokenizer_max_length 154 = true := by
    rw [h]
    simpa [tokenizer_len_needs_clamp] using hv
  unfold apply_t5_clamp
  simp [hc, hik]

/-- A `None` `tokenizer_max_length` with the override flag set stays
`None` through the clamp step, with the two override warnings. -/
theorem apply_t5_clamp_none_flag (cfg : Config)
    (h : cfg.tokenizer_max_length = none)
    (hik : cfg.i_know_what_i_am_doing = true) :
    apply_t5_clamp cfg =
      (cfg, [(LogLevel.warning, msg_override_1 154),
             (LogLevel.warning, msg_override_2 154)]) := by
  have hc : tokenizer_len_needs_clamp cfg.tokenizer_max_length 154 = true := by
    rw [h]
    rfl
  unfold apply_t5_clamp
  simp [hc, hik]

/-- The alignment step forces the alignment to exactly 64. -/
theorem apply_alignment_aspect (cfg : Config) :
    (apply_alignment cfg).1.aspect_bucket_alignment = 64 := by
  unfold apply_alignment
  split_ifs with h
  · rfl
  · simpa using h

/-- The alignment step never touches the other fields, and its log is
empty when the supplied value was already 64 and the single override
warning otherwise. -/
theorem apply_alignment_frame (cfg : Config) :
    (apply_alignment cfg).1.base_model_precision = cfg.base_model_precision ∧
    (apply_alignment cfg).1.tokenizer_max_length = cfg.tokenizer_max_length ∧
    (apply_alignment cfg).1.i_know_what_i_am_doing = cfg.i_know_what_i_am_doing ∧
    (apply_alignment cfg).1.pretrained_vae_model_name_or_path = cfg.pretrained_vae_model_name_or_path ∧
    (apply_alignment cfg).1.disable_compel = cfg.disable_compel ∧
    (apply_alignment cfg).1.sd3_t5_uncond_behaviour = cfg.sd3_t5_uncond_behaviour ∧
    (apply_alignment cfg).1.sd3_clip_uncond_behaviour = cfg.sd3_clip_uncond_behaviour ∧
    (cfg.aspect_bucket_alignment = 64 → apply_alignment cfg = (cfg, [])) ∧
    (cfg.aspect_bucket_alignment ≠ 64 →
      (apply_alignment cfg).2 = [(LogLevel.warning, msg_alignment)]) := by
  unfold apply_alignment
  split_ifs with h <;> simp_all

/-- The unconditional-caption step: it fills an unset T5 behaviour
from the CLIP behaviour, keeps a set one, and never touches the other
fields. -/
theorem apply_t5_uncond_spec (cfg : Config) :
    (cfg.sd3_t5_uncond_behaviour = none →
      apply_t5_uncond cfg = { cfg with sd3_t5_uncond_behaviour := cfg.sd3_clip_uncond_behaviour }) ∧
    (cfg.sd3_t5_uncond_behaviour ≠ none → apply_t5_uncond cfg = cfg) ∧
    (apply_t5_uncond cfg).base_model_precision = cfg.base_model_precision ∧
    (apply_t5_uncond cfg).tokenizer_max_length = cfg.tokenizer_max_length ∧
    (apply_t5_uncond cfg).pretrained_vae_model_name_or_path = cfg.pretrained_vae_model_name_or_path ∧
    (apply_t5_uncond cfg).disable_compel = cfg.disable_compel ∧
    (apply_t5_uncond cfg).aspect_bucket_alignment = cfg.aspect_bucket_alignment ∧
    (apply_t5_uncond cfg).sd3_clip_uncond_behaviour = cfg.sd3_clip_uncond_behaviour := by
  unfold apply_t5_uncond
  split_ifs with h <;> simp_all

/-- C7: whenever `check_user_config` returns, the custom autoencoder
override is cleared, Compel prompt weighting is disabled,
`aspect_bucket_alignment` is exactly 64 (with an override warning
logged when the supplied value differed), and an unset T5
unconditional-caption behaviour defaults to the CLIP branch's
configured behaviour. -/
theorem C7_forced_config_fields (cfg : Config)
    (hprec : cfg.base_model_precision ≠ "fp8-quanto") :
    match check_user_config cfg with
    | .ok (res, logs) =>
        res.pretrained_vae_model_name_or_path = none ∧
        res.disable_compel = true ∧
        res.aspect_bucket_alignment = 64 ∧
        (cfg.aspect_bucket_alignment ≠ 64 → (LogLevel.warning, msg_alignment) ∈ logs) ∧
        (cfg.sd3_t5_uncond_behaviour = none →
          res.sd3_t5_uncond_behaviour = cfg.sd3_clip_uncond_behaviour)
    | .error _ => False := by
  rw [check_user_config_eq cfg hprec]
  obtain ⟨hA1, hA2, hA3, hA4, hA5, hA6, hA7⟩ := apply_t5_clamp_frame cfg
  obtain ⟨hC1, hC2, hC3, hC4, hC5, hC6, hC7, hC8, hC9⟩ :=
    apply_alignment_frame (apply_vae_compel (apply_t5_clamp cfg).1)
  obtain ⟨hD1, hD2, hD3, hD4, hD5, hD6, hD7, hD8⟩ :=
    apply_t5_uncond_spec (apply_alignment (apply_vae_compel (apply_t5_clamp cfg).1)).1
  refine ⟨?_, ?_, ?_, ?_, ?_⟩
  · rw [hD5, hC4]
    rfl
  · rw [hD6, hC5]
    rfl
  · rw [hD7]
    exact apply_alignment_aspect _
  · intro h
    have hne : (apply_vae_compel (apply_t5_clamp cfg).1).aspect_bucket_alignment ≠ 64 := by
      show (apply_t5_clamp cfg).1.aspect_bucket_alignment ≠ 64
      rw [hA5]
      exact h
    rw [hC9 hne]
    simp
  · intro h
    have ht5 : (apply_alignment (apply_vae_compel (apply_t5_clamp cfg).1)).1.sd3_t5_uncond_behaviour = none := by
      rw [hC6]
      show (apply_t5_clamp cfg).1.sd3_t5_uncond_behaviour = none
      rw [hA6]
      exact h
    rw [hD1 ht5]
    show (apply_alignment (apply_vae_compel (apply_t5_clamp cfg).1)).1.sd3_clip_uncond_behaviour =
      cfg.sd3_clip_uncond_behaviour
    rw [hC7]
    show (apply_t5_clamp cfg).1.sd3_clip_uncond_behaviour = cfg.sd3_clip_uncond_behaviour
    exact hA7

/-- Witness for C7 at a concrete configuration with a nonstandard
alignment and an unset T5 unconditional-caption behaviour. -/
theorem C7_forced_config_fields_witness :
    (⟨"int8", some 100, false, some "vae", false, 32, none, some "empty"⟩ : Config).base_model_precision
        ≠ "fp8-quanto" ∧
    match check_user_config ⟨"int8", some 100, false, some "vae", false, 32, none, some "empty"⟩ with
    | .ok (res, logs) =>
        res.pretrained_vae_model_name_or_path = none ∧
        res.disable_compel = true ∧
        res.aspect_bucket_alignment = 64 ∧
        ((⟨"int8", some 100, false, some "vae", false, 32, none, some "empty"⟩ : Config).aspect_bucket_alignment
            ≠ 64 → (LogLevel.warning, msg_alignment) ∈ logs) ∧
        ((⟨"int8", some 100, false, some "vae", false, 32, none, some "empty"⟩ : Config).sd3_t5_uncond_behaviour
            = none → res.sd3_t5_uncond_behaviour
              = (⟨"int8", some 100, false, some "vae", false, 32, none, some "empty"⟩ : Config).sd3_clip_uncond_behaviour)
    | .error _ => False :=
  ⟨by decide,
   C7_forced_config_fields ⟨"int8", some 100, false, some "vae", false, 32, none, some "empty"⟩
     (by decide)⟩

/-- For a configuration passing the precision gate with the standard
alignment of 64, the validator succeeds, its resulting
`tokenizer_max_length` is the clamp step's, and the warning-level log
records are exactly the clamp step's. -/
theorem check_user_config_warnfilter (cfg : Config)
    (hprec : cfg.base_model_precision ≠ "fp8-quanto")
    (halign : cfg.aspect_bucket_alignment = 64) :
    match check_user_config cfg with
    | .ok (res, logs) =>
        res.tokenizer_max_length = (apply_t5_clamp cfg).1.tokenizer_max_length ∧
        logs.filter (fun l => l.1 = LogLevel.warning) =
          (apply_t5_clamp cfg).2.filter (fun l => l.1 = LogLevel.warning)
    | .error _ => False := by
  rw [check_user_config_eq cfg hprec]
  obtain ⟨hA1, hA2, hA3, hA4, hA5, hA6, hA7⟩ := apply_t5_clamp_frame cfg
  have hB : (apply_vae_compel (apply_t5_clamp cfg).1).aspect_bucket_alignment = 64 := by
    show (apply_t5_clamp cfg).1.aspect_bucket_alignment = 64
    rw [hA5]
    exact halign
  obtain ⟨-, -, -, -, -, -, -, h8, -⟩ :=
    apply_alignment_frame (apply_vae_compel (apply_t5_clamp cfg).1)
  rw [h8 hB]
  obtain ⟨-, -, -, hD4, -, -, -, -⟩ :=
    apply_t5_uncond_spec (apply_vae_compel (apply_t5_clamp cfg).1)
  refine ⟨?_, by simp⟩
  rw [hD4]
  rfl

/-- C6: with `tokenizer_max_length = 300` and the override flag unset,
`check_user_config` clamps the value to 154 and the single warning-level
record logged is the clamp notice; with the flag set the value stays
300, exactly the two override warnings are logged, and setup proceeds
(the call returns successfully in both cases).  The configuration is
assumed to pass the precision gate and to carry the standard alignment
of 64, so that no unrelated warning is emitted. -/
theorem C6_t5_length_clamp (cfg : Config)
    (hprec : cfg.base_model_precision ≠ "fp8-quanto")
    (halign : cfg.aspect_bucket_alignment = 64) :
    (match check_user_config
        { cfg with tokenizer_max_length := some 300, i_know_what_i_am_doing := false } with
     | .ok (res, logs) =>
         res.tokenizer_max_length = some 154 ∧
         logs.filter (fun l => l.1 = LogLevel.warning) = [(LogLevel.warning, msg_clamp 154)]
     | .error _ => False) ∧
    (match check_user_config
        { cfg with tokenizer_max_length := some 300, i_know_what_i_am_doing := true } with
     | .ok (res, logs) =>
         res.tokenizer_max_length = some 300 ∧
         logs.filter (fun l => l.1 = LogLevel.warning) =
           [(LogLevel.warning, msg_override_1 154), (LogLevel.warning, msg_override_2 154)]
     | .error _ => False) := by
  constructor
  · have hmain := check_user_config_warnfilter
      { cfg with tokenizer_max_length := some 300, i_know_what_i_am_doing := false }
      hprec halign
    rw [apply_t5_clamp_over_noflag _ 300 rfl (by norm_num) rfl] at hmain
    simpa using hmain
  · have hmain := check_user_config_warnfilter
      { cfg with tokenizer_max_length := some 300, i_know_what_i_am_doing := true }
      hprec halign
    rw [apply_t5_clamp_over_flag _ 300 rfl (by norm_num) rfl] at hmain
    simpa using hmain

/-- Witness for C6 at a fully concrete configuration. -/
theorem C6_t5_length_clamp_witness :
    (match check_user_config ⟨"int8", some 300, false, none, false, 64, none, none⟩ with
     | .ok (res, logs) =>
         res.tokenizer_max_length = some 154 ∧
         logs.filter (fun l => l.1 = LogLevel.warning) = [(LogLevel.warning, msg_clamp 154)]
     | .error _ => False) ∧
    (match check_user_config ⟨"int8", some 300, true, none, false, 64, none, none⟩ with
     | .ok (res, logs) =>
         res.tokenizer_max_length = some 300 ∧
         logs.filter (fun l => l.1 = LogLevel.warning) =
           [(LogLevel.warning, msg_override_1 154), (LogLevel.warning, msg_override_2 154)]
     | .error _ => False) :=
  ⟨(C6_t5_length_clamp ⟨"int8", some 300, false, none, false, 64, none, none⟩
      (by decide) (by decide)).1,
   (C6_t5_length_clamp ⟨"int8", some 300, true, none, false, 64, none, none⟩
      (by decide) (by decide)).2⟩

/-- The clamp notice differs from the alignment warning text. -/
theorem msg_clamp_ne_alignment : msg_clamp 154 ≠ msg_alignment := by decide

/-- The first override warning differs from the alignment warning. -/
theorem msg_override_1_ne_alignment : msg_override_1 154 ≠ msg_alignment := by decide

/-- The second override warning differs from the alignment warning. -/
theorem msg_override_2_ne_alignment : msg_override_2 154 ≠ msg_alignment := by decide

/-- C10: a `tokenizer_max_length` already set and at most 154 passes
`check_user_config` unchanged with no length-related log record; and a
`None` value under the override flag stays `None` (no default of 154
is substituted). -/
theorem C10_short_length_untouched (cfg : Config) (v : Int)
    (hprec : cfg.base_model_precision ≠ "fp8-quanto") :
    (cfg.tokenizer_max_length = some v → v ≤ 154 →
      match check_user_config cfg with
      | .ok (res, logs) =>
          res.tokenizer_max_length = some v ∧
          (LogLevel.warning, msg_clamp 154) ∉ logs ∧
          (LogLevel.warning, msg_override_1 154) ∉ logs ∧
          (LogLevel.warning, msg_override_2 154) ∉ logs
      | .error _ => False) ∧
    (cfg.tokenizer_max_length = none → cfg.i_know_what_i_am_doing = true →
      match check_user_config cfg with
      | .ok (res, _) => res.tokenizer_max_length = none
      | .error _ => False) := by
  constructor
  · intro h hv
    rw [check_user_config_eq _ hprec]
    rw [apply_t5_clamp_small cfg v h hv]
    dsimp only
    obtain ⟨-, hC2, -, -, -, -, -, h8, h9⟩ := apply_alignment_frame (apply_vae_compel cfg)
    obtain ⟨-, -, -, hD4, -, -, -, -⟩ :=
      apply_t5_uncond_spec (apply_alignment (apply_vae_compel cfg)).1
    refine ⟨by rw [hD4, hC2]; exact h, ?_, ?_, ?_⟩ <;>
      by_cases hA : (apply_vae_compel cfg).aspect_bucket_alignment = 64
    · rw [h8 hA]
      simp
    · rw [h9 hA]
      simp [msg_clamp_ne_alignment]
    · rw [h8 hA]
      simp
    · rw [h9 hA]
      simp [msg_override_1_ne_alignment]
    · rw [h8 hA]
      simp
    · rw [h9 hA]
      simp [msg_override_2_ne_alignment]
  · intro h hik
    rw [check_user_config_eq _ hprec]
    rw [apply_t5_clamp_none_flag cfg h hik]
    dsimp only
    obtain ⟨-, hC2, -, -, -, -, -, -, -⟩ := apply_alignment_frame (apply_vae_compel cfg)
    obtain ⟨-, -, -, hD4, -, -, -, -⟩ :=
      apply_t5_uncond_spec (apply_alignment (apply_vae_compel cfg)).1
    rw [hD4, hC2]
    exact h

/-- Witness for C10 at concrete configurations exercising both parts. -/
theorem C10_short_length_untouched_witness :
    (match check_user_config ⟨"int8", some 100, false, none, false, 32, none, none⟩ with
     | .ok (res, logs) =>
         res.tokenizer_max_length = some 100 ∧
         (LogLevel.warning, msg_clamp 154) ∉ logs ∧
         (LogLevel.warning, msg_override_1 154) ∉ logs ∧
         (LogLevel.warning, msg_override_2 154) ∉ logs
     | .error _ => False) ∧
    (match check_user_config ⟨"int8", none, true, none, false, 64, none, none⟩ with
     | .ok (res, _) => res.tokenizer_max_length = none
     | .error _ => False) :=
  ⟨(C10_short_length_untouched ⟨"int8", some 100, false, none, false, 32, none, none⟩ 100
      (by decide)).1 rfl (by norm_num),
   (C10_short_length_untouched ⟨"int8", none, true, none, false, 64, none, none⟩ 0
      (by decide)).2 rfl rfl⟩

/-- One unfolding step of the drain loop: on a roster ending in `m`,
`m` is popped first and dispatched according to `classify_one`. -/
theorem classify_models_concat (sub : String → String → Bool) (refT refE1 refE2 : String)
    (ms : List SavedModel) (m : SavedModel) (slots : Slots) :
    classify_models sub refT refE1 refE2 (ms ++ [m]) slots =
      match classify_one sub refT refE1 refE2 m with
      | some SubModelSlot.denoiserSlot =>
          classify_models sub refT refE1 refE2 ms
            { slots with transformer_ := some m, denoiser := some m }
      | some SubModelSlot.teOneSlot =>
          classify_models sub refT refE1 refE2 ms
            { slots with text_encoder_one_ := some m }
      | some SubModelSlot.teTwoSlot =>
          classify_models sub refT refE1 refE2 ms
            { slots with text_encoder_two_ := some m }
      | none => (ms, slots, some (classification_error_msg m refT)) := by
  unfold classify_models classify_one
  simp only [List.reverse_append, List.reverse_cons, List.reverse_nil, List.nil_append,
    List.singleton_append]
  simp only [classifyGo]
  split_ifs with h1 h2 h3 <;> simp [List.reverse_reverse]

/-- The drain loop succeeds exactly when every entry is classifiable;
on success the roster is fully drained and each named slot holds the
earliest entry (in roster order) whose `classify_one` points at that
slot, falling back to the incoming slot value. -/
theorem classify_models_spec (sub : String → String → Bool) (refT refE1 refE2 : String)
    (ms : List SavedModel) (slots : Slots) :
    ((classify_models sub refT refE1 refE2 ms slots).2.2 = none ↔
      ∀ m ∈ ms, classify_one sub refT refE1 refE2 m ≠ none) ∧
    ((classify_models sub refT refE1 refE2 ms slots).2.2 = none →
      (classify_models sub refT refE1 refE2 ms slots).1 = [] ∧
      (classify_models sub refT refE1 refE2 ms slots).2.1.transformer_ =
        ((ms.filter (fun x => classify_one sub refT refE1 refE2 x
            = some SubModelSlot.denoiserSlot)).head?).or slots.transformer_ ∧
      (classify_models sub refT refE1 refE2 ms slots).2.1.text_encoder_one_ =
        ((ms.filter (fun x => classify_one sub refT refE1 refE2 x
            = some SubModelSlot.teOneSlot)).head?).or slots.text_encoder_one_ ∧
      (classify_models sub refT refE1 refE2 ms slots).2.1.text_encoder_two_ =
        ((ms.filter (fun x => classify_one sub refT refE1 refE2 x
            = some SubModelSlot.teTwoSlot)).head?).or slots.text_encoder_two_ ∧
      (classify_models sub refT refE1 refE2 ms slots).2.1.denoiser =
        ((ms.filter (fun x => classify_one sub refT refE1 refE2 x
            = some SubModelSlot.denoiserSlot)).head?).or slots.denoiser) := by
  induction ms using List.reverseRecOn generalizing slots with
  | nil => simp [classify_models, classifyGo]
  | append_singleton ms m ih =>
    rw [classify_models_concat]
    cases hc : classify_one sub refT refE1 refE2 m with
    | none =>
      refine ⟨⟨fun h => absurd h (by simp), fun h => absurd hc (h m (by simp))⟩, ?_⟩
      intro h
      exact absurd h (by simp)
    | some slot =>
      cases slot
      · have ih' := ih { slots with transformer_ := some m, denoiser := some m }
        simp only []
        constructor
        · rw [ih'.1]
          constructor
          · rintro h x hx
            rcases List.mem_append.mp hx with hx | hx
            · exact h x hx
            · rw [List.mem_singleton.mp hx]
              simp [hc]
          · intro h x hx
            exact h x (List.mem_append_left _ hx)
        · intro hnone
          obtain ⟨hdr, ht, h1, h2, hd⟩ := ih'.2 hnone
          refine ⟨hdr, ?_, ?_, ?_, ?_⟩ <;>
            simp only [ht, h1, h2, hd, List.filter_append, List.head?_append,
              Option.or_assoc] <;>
            simp [List.filter, hc]
      · have ih' := ih { slots with text_encoder_one_ := some m }
        simp only []
        constructor
        · rw [ih'.1]
          constructor
          · rintro h x hx
            rcases List.mem_append.mp hx with hx | hx
            · exact h x hx
            · rw [List.mem_singleton.mp hx]
              simp [hc]
          · intro h x hx
            exact h x (List.mem_append_left _ hx)
        · intro hnone
          obtain ⟨hdr, ht, h1, h2, hd⟩ := ih'.2 hnone
          refine ⟨hdr, ?_, ?_, ?_, ?_⟩ <;>
            simp only [ht, h1, h2, hd, List.filter_append, List.head?_append,
              Option.or_assoc] <;>
            simp [List.filter, hc]
      · have ih' := ih { slots with text_encoder_two_ := some m }
        simp only []
        constructor
        · rw [ih'.1]
          constructor
          · rintro h x hx
            rcases List.mem_append.mp hx with hx | hx
            · exact h x hx
            · rw [List.mem_singleton.mp hx]
              simp [hc]
          · intro h x hx
            exact h x (List.mem_append_left _ hx)
        · intro hnone
          obtain ⟨hdr, ht, h1, h2, hd⟩ := ih'.2 hnone
          refine ⟨hdr, ?_, ?_, ?_, ?_⟩ <;>
            simp only [ht, h1, h2, hd, List.filter_append, List.head?_append,
              Option.or_assoc] <;>
            simp [List.filter, hc]

/-- When some roster entry is unclassifiable, the drain loop stops
with the `ValueError` message naming such an entry. -/
theorem classify_models_err (sub : String → String → Bool) (refT refE1 refE2 : String)
    (ms : List SavedModel) (slots : Slots)
    (hbad : ∃ m ∈ ms, classify_one sub refT refE1 refE2 m = none) :
    ∃ m ∈ ms, classify_one sub refT refE1 refE2 m = none ∧
      (classify_models sub refT refE1 refE2 ms slots).2.2 =
        some (classification_error_msg m refT) := by
  induction ms using List.reverseRecOn generalizing slots with
  | nil => simp at hbad
  | append_singleton ms m ih =>
    rw [classify_models_concat]
    cases hc : classify_one sub refT refE1 refE2 m with
    | none =>
      exact ⟨m, by simp, hc, rfl⟩
    | some slot =>
      obtain ⟨x, hx, hxn⟩ := hbad
      rcases List.mem_append.mp hx with hx' | hx'
      · cases slot
        · obtain ⟨y, hy, hyn, hres⟩ := ih _ ⟨x, hx', hxn⟩
          exact ⟨y, List.mem_append_left _ hy, hyn, hres⟩
        · obtain ⟨y, hy, hyn, hres⟩ := ih _ ⟨x, hx', hxn⟩
          exact ⟨y, List.mem_append_left _ hy, hyn, hres⟩
        · obtain ⟨y, hy, hyn, hres⟩ := ih _ ⟨x, hx', hxn⟩
          exact ⟨y, List.mem_append_left _ hy, hyn, hres⟩
      · rw [List.mem_singleton.mp hx'] at hxn
        exact absurd hxn (by simp [hc])

/-- Every slot produced by the drain loop holds either its incoming
value or one of the roster entries, unchanged: classification reads
the entries but never rewrites them. -/
theorem classify_models_slots_from (sub : String → String → Bool) (refT refE1 refE2 : String)
    (ms : List SavedModel) (slots : Slots) :
    ((classify_models sub refT refE1 refE2 ms slots).2.1.transformer_ = slots.transformer_ ∨
      ∃ m ∈ ms, (classify_models sub refT refE1 refE2 ms slots).2.1.transformer_ = some m) ∧
    ((classify_models sub refT refE1 refE2 ms slots).2.1.text_encoder_one_ = slots.text_encoder_one_ ∨
      ∃ m ∈ ms, (classify_models sub refT refE1 refE2 ms slots).2.1.text_encoder_one_ = some m) ∧
    ((classify_models sub refT refE1 refE2 ms slots).2.1.text_encoder_two_ = slots.text_encoder_two_ ∨
      ∃ m ∈ ms, (classify_models sub refT refE1 refE2 ms slots).2.1.text_encoder_two_ = some m) ∧
    ((classify_models sub refT refE1 refE2 ms slots).2.1.denoiser = slots.denoiser ∨
      ∃ m ∈ ms, (classify_models sub refT refE1 refE2 ms slots).2.1.denoiser = some m) := by
  induction ms using List.reverseRecOn generalizing slots with
  | nil => simp [classify_models, classifyGo]
  | append_singleton ms m ih =>
    rw [classify_models_concat]
    cases hc : classify_one sub refT refE1 refE2 m with
    | none =>
      exact ⟨Or.inl rfl, Or.inl rfl, Or.inl rfl, Or.inl rfl⟩
    | some slot =>
      cases slot
      · obtain ⟨h1, h2, h3, h4⟩ := ih { slots with transformer_ := some m, denoiser := some m }
        refine ⟨?_, ?_, ?_, ?_⟩
        · rcases h1 with h | ⟨x, hx, h⟩
          · exact Or.inr ⟨m, by simp, h⟩
          · exact Or.inr ⟨x, List.mem_append_left _ hx, h⟩
        · rcases h2 with h | ⟨x, hx, h⟩
          · exact Or.inl h
          · exact Or.inr ⟨x, List.mem_append_left _ hx, h⟩
        · rcases h3 with h | ⟨x, hx, h⟩
          · exact Or.inl h
          · exact Or.inr ⟨x, List.mem_append_left _ hx, h⟩
        · rcases h4 with h | ⟨x, hx, h⟩
          · exact Or.inr ⟨m, by simp, h⟩
          · exact Or.inr ⟨x, List.mem_append_left _ hx, h⟩
      · obtain ⟨h1, h2, h3, h4⟩ := ih { slots with text_encoder_one_ := some m }
        refine ⟨?_, ?_, ?_, ?_⟩
        · rcases h1 with h | ⟨x, hx, h⟩
          · exact Or.inl h
          · exact Or.inr ⟨x, List.mem_append_left _ hx, h⟩
        · rcases h2 with h | ⟨x, hx, h⟩
          · exact Or.inr ⟨m, by simp, h⟩
          · exact Or.inr ⟨x, List.mem_append_left _ hx, h⟩
        · rcases h3 with h | ⟨x, hx, h⟩
          · exact Or.inl h
          · exact Or.inr ⟨x, List.mem_append_left _ hx, h⟩
        · rcases h4 with h | ⟨x, hx, h⟩
          · exact Or.inl h
          · exact Or.inr ⟨x, List.mem_append_left _ hx, h⟩
      · obtain ⟨h1, h2, h3, h4⟩ := ih { slots with text_encoder_two_ := some m }
        refine ⟨?_, ?_, ?_, ?_⟩
        · rcases h1 with h | ⟨x, hx, h⟩
          · exact Or.inl h
          · exact Or.inr ⟨x, List.mem_append_left _ hx, h⟩
        · rcases h2 with h | ⟨x, hx, h⟩
          · exact Or.inl h
          · exact Or.inr ⟨x, List.mem_append_left _ hx, h⟩
        · rcases h3 with h | ⟨x, hx, h⟩
          · exact Or.inr ⟨m, by simp, h⟩
          · exact Or.inr ⟨x, List.mem_append_left _ hx, h⟩
        · rcases h4 with h | ⟨x, hx, h⟩
          · exact Or.inl h
          · exact Or.inr ⟨x, List.mem_append_left _ hx, h⟩

/-- C3: when the roster contains an entry whose unwrapped type matches
none of the three reference sub-models, `load_lora_weights` raises the
`ValueError` whose message carries the offending entry's class names,
no warning has been logged, and every sub-model slot at the raise
point is either unfilled or one of the original roster entries
unchanged (weights included): classification completes before any
weight application. -/
theorem C3_classification_error (sub : String → String → Bool)
    (refT refE1 refE2 : String) (convert_key : String → String)
    (train_text_encoder : Bool) (lora_state_dict : StateDict)
    (models : List SavedModel) (res : LoadResult)
    (hres : res = load_lora_weights sub refT refE1 refE2 convert_key
      train_text_encoder lora_state_dict models)
    (hbad : ∃ m ∈ models, classify_one sub refT refE1 refE2 m = none) :
    (∃ m ∈ models, classify_one sub refT refE1 refE2 m = none ∧
      res.error = some (classification_error_msg m refT)) ∧
    res.warnings = [] ∧
    (res.transformer_ = none ∨ ∃ m ∈ models, res.transformer_ = some m) ∧
    (res.text_encoder_one_ = none ∨ ∃ m ∈ models, res.text_encoder_one_ = some m) ∧
    (res.text_encoder_two_ = none ∨ ∃ m ∈ models, res.text_encoder_two_ = some m) ∧
    (res.denoiser = none ∨ ∃ m ∈ models, res.denoiser = some m) := by
  subst hres
  obtain ⟨m, hm, hmn, herr⟩ := classify_models_err sub refT refE1 refE2 models Slots.empty hbad
  have hpure := classify_models_slots_from sub refT refE1 refE2 models Slots.empty
  unfold load_lora_weights
  rcases hcm : classify_models sub refT refE1 refE2 models Slots.empty with ⟨ms', slots', err⟩
  rw [hcm] at herr hpure
  dsimp only at herr hpure ⊢
  subst herr
  dsimp only
  obtain ⟨h1, h2, h3, h4⟩ := hpure
  exact ⟨⟨m, hm, hmn, rfl⟩, rfl, h1, h2, h3, h4⟩

/-- Witness for C3 on a concrete roster containing a stray
autoencoder entry. -/
theorem C3_classification_error_witness :
    ∃ m ∈ [demoTE1, demoStray], classify_one subEq refTransformer refTE1 refTE2 m = none ∧
      (load_lora_weights subEq refTransformer refTE1 refTE2 id false []
        [demoTE1, demoStray]).error = some (classification_error_msg m refTransformer) :=
  (C3_classification_error subEq refTransformer refTE1 refTE2 id false []
    [demoTE1, demoStray] _ rfl ⟨demoStray, by simp, by decide⟩).1

/-- C8: a successful classification drains the roster completely, and
each named slot ends up holding exactly the earliest roster entry (in
list order, i.e. classified last by the pop loop) whose unwrapped type
dispatches to that slot — so the destination of every entry is a
function of its type alone, never of its position. -/
theorem C8_roster_drain (sub : String → String → Bool) (refT refE1 refE2 : String)
    (models ms' : List SavedModel) (slots' : Slots)
    (hok : classify_models sub refT refE1 refE2 models Slots.empty = (ms', slots', none)) :
    ms' = [] ∧
    slots'.transformer_ = (models.filter (fun x =>
      classify_one sub refT refE1 refE2 x = some SubModelSlot.denoiserSlot)).head? ∧
    slots'.text_encoder_one_ = (models.filter (fun x =>
      classify_one sub refT refE1 refE2 x = some SubModelSlot.teOneSlot)).head? ∧
    slots'.text_encoder_two_ = (models.filter (fun x =>
      classify_one sub refT refE1 refE2 x = some SubModelSlot.teTwoSlot)).head? ∧
    slots'.denoiser = slots'.transformer_ := by
  have hspec := (classify_models_spec sub refT refE1 refE2 models Slots.empty).2
  rw [hok] at hspec
  obtain ⟨hdr, ht, h1, h2, hd⟩ := hspec rfl
  dsimp only [Slots.empty] at ht h1 h2 hd
  rw [Option.or_none] at ht h1 h2 hd
  exact ⟨hdr, ht, h1, h2, by rw [hd, ht]⟩

/-- Witness for C8 on a concrete two-entry roster. -/
theorem C8_roster_drain_witness :
    ([] : List SavedModel) = [] ∧
    (some demoDenoiser) = ([demoDenoiser, demoTE1].filter (fun x =>
      classify_one subEq refTransformer refTE1 refTE2 x = some SubModelSlot.denoiserSlot)).head? ∧
    (some demoTE1) = ([demoDenoiser, demoTE1].filter (fun x =>
      classify_one subEq refTransformer refTE1 refTE2 x = some SubModelSlot.teOneSlot)).head? ∧
    (none : Option SavedModel) = ([demoDenoiser, demoTE1].filter (fun x =>
      classify_one subEq refTransformer refTE1 refTE2 x = some SubModelSlot.teTwoSlot)).head? ∧
    (some demoDenoiser : Option SavedModel) = some demoDenoiser :=
  C8_roster_drain subEq refTransformer refTE1 refTE2 [demoDenoiser, demoTE1] []
    ⟨some demoDenoiser, some demoTE1, none, some demoDenoiser⟩ (by decide)

/-- C9: classification raises exactly when some entry matches no
reference class; in particular a roster of two denoiser-typed entries
is accepted without error, the entry classified later (the first in
list order, popped last) silently overwriting the other in the
transformer slot, and the full adapter load reports no error on such a
roster. -/
theorem C9_duplicate_roster_entries (sub : String → String → Bool)
    (refT refE1 refE2 : String) :
    (∀ models : List SavedModel,
      (classify_models sub refT refE1 refE2 models Slots.empty).2.2 = none ↔
        ∀ m ∈ models, classify_one sub refT refE1 refE2 m ≠ none) ∧
    (∀ d1 d2 : SavedModel,
      classify_one sub refT refE1 refE2 d1 = some SubModelSlot.denoiserSlot →
      classify_one sub refT refE1 refE2 d2 = some SubModelSlot.denoiserSlot →
      classify_models sub refT refE1 refE2 [d1, d2] Slots.empty =
        ([], { transformer_ := some d1, text_encoder_one_ := none,
               text_encoder_two_ := none, denoiser := some d1 }, none)) ∧
    (∀ (d1 d2 : SavedModel) (convert_key : String → String)
        (train_text_encoder : Bool) (lora_state_dict : StateDict),
      classify_one sub refT refE1 refE2 d1 = some SubModelSlot.denoiserSlot →
      classify_one sub refT refE1 refE2 d2 = some SubModelSlot.denoiserSlot →
      (load_lora_weights sub refT refE1 refE2 convert_key train_text_encoder
        lora_state_dict [d1, d2]).error = none) := by
  have hpair : ∀ d1 d2 : SavedModel,
      classify_one sub refT refE1 refE2 d1 = some SubModelSlot.denoiserSlot →
      classify_one sub refT refE1 refE2 d2 = some SubModelSlot.denoiserSlot →
      classify_models sub refT refE1 refE2 [d1, d2] Slots.empty =
        ([], { transformer_ := some d1, text_encoder_one_ := none,
               text_encoder_two_ := none, denoiser := some d1 }, none) := by
    intro d1 d2 h1 h2
    have e2 : ([d1, d2] : List SavedModel) = [d1] ++ [d2] := rfl
    rw [e2, classify_models_concat, h2]
    have e1 : ([d1] : List SavedModel) = [] ++ [d1] := rfl
    rw [e1, classify_models_concat, h1]
    rfl
  refine ⟨fun models => (classify_models_spec sub refT refE1 refE2 models Slots.empty).1,
    hpair, ?_⟩
  intro d1 d2 convert_key train_text_encoder lora_state_dict h1 h2
  unfold load_lora_weights
  rw [hpair d1 d2 h1 h2]

/-- Witness for C9 on a concrete roster holding two denoiser-typed
entries. -/
theorem C9_duplicate_roster_entries_witness :
    classify_models subEq refTransformer refTE1 refTE2 [demoDenoiser, demoDenoiser2]
        Slots.empty =
      ([], { transformer_ := some demoDenoiser, text_encoder_one_ := none,
             text_encoder_two_ := none, denoiser := some demoDenoiser }, none) ∧
    (load_lora_weights subEq refTransformer refTE1 refTE2 id false []
      [demoDenoiser, demoDenoiser2]).error = none :=
  ⟨(C9_duplicate_roster_entries subEq refTransformer refTE1 refTE2).2.1
      demoDenoiser demoDenoiser2 (by decide) (by decide),
   (C9_duplicate_roster_entries subEq refTransformer refTE1 refTE2).2.2
      demoDenoiser demoDenoiser2 id false [] (by decide) (by decide)⟩

/-- Counterexample to C4 as stated: the source rewrites slice keys
with Python `str.replace`, which removes every occurrence of
`"transformer."`, not only the leading prefix.  On the checkpoint key
`"transformer.a.transformer.b"` the denoiser receives the key
`"a.b"`, whereas stripping the prefix as the claim words it would
leave `"a.transformer.b"`. -/
theorem C4_prefix_strip_counterexample :
    (load_lora_weights subEq refTransformer refTE1 refTE2 id false
        [("transformer.a.transformer.b", 5)] [demoDenoiser]).denoiser =
      some { demoDenoiser with adapters := [("default", [("a.b", 5)])] } ∧
    (load_lora_weights subEq refTransformer refTE1 refTE2 id false
        [("transformer.a.transformer.b", 5)] [demoDenoiser]).denoiser ≠
      some { demoDenoiser with adapters :=
        [("default", [(strip_namespace_token MODEL_SUBFOLDER "transformer.a.transformer.b", 5)])] } ∧
    pyReplace "transformer.a.transformer.b" (MODEL_SUBFOLDER ++ ".") "" = "a.b" ∧
    strip_namespace_token MODEL_SUBFOLDER "transformer.a.transformer.b" = "a.transformer.b" := by
  refine ⟨by decide, by decide, by decide, by decide⟩

/-- C4 as amended: after a successful classification that filled the
denoiser slot, the load never aborts; the denoiser gains, under the
adapter name `"default"`, exactly the entries built from the
checkpoint keys prefixed with the namespace token followed by a dot
(`"transformer."`), with the key rewritten by removing every
occurrence of that token (Python `str.replace`; equal to prefix
stripping when the token occurs only as the prefix) and then the
external peft remap, the tensor payloads unchanged, restricted to the
keys the denoiser's adapter schema knows; and a warning is logged
precisely when some sliced key is unknown to the schema — unexpected
keys never abort the load. -/
theorem C4_denoiser_slice_amended (sub : String → String → Bool)
    (refT refE1 refE2 : String) (convert_key : String → String)
    (lora_state_dict : StateDict) (models ms' : List SavedModel)
    (slots' : Slots) (d : SavedModel) (res : LoadResult)
    (hres : res = load_lora_weights sub refT refE1 refE2 convert_key false
      lora_state_dict models)
    (hok : classify_models sub refT refE1 refE2 models Slots.empty = (ms', slots', none))
    (hden : slots'.denoiser = some d) :
    res.error = none ∧
    (∃ applied : StateDict,
      res.denoiser = some { d with adapters := ("default", applied) :: d.adapters } ∧
      ∀ k v, (k, v) ∈ applied ↔
        (k ∈ d.adapterKeys ∧ ∃ k0, (k0, v) ∈ lora_state_dict ∧
          pyStartsWith k0 (MODEL_SUBFOLDER ++ ".") = true ∧
          k = convert_key (pyReplace k0 (MODEL_SUBFOLDER ++ ".") ""))) ∧
    (res.warnings ≠ [] ↔ ∃ k0 v, (k0, v) ∈ lora_state_dict ∧
      pyStartsWith k0 (MODEL_SUBFOLDER ++ ".") = true ∧
      convert_key (pyReplace k0 (MODEL_SUBFOLDER ++ ".") "") ∉ d.adapterKeys) := by
  have hnil : ∀ {α : Type} (l : List α), l ≠ [] ↔ ∃ x, x ∈ l := by
    intro α l
    cases l <;> simp
  subst hres
  unfold load_lora_weights
  rw [hok]
  dsimp only
  rw [hden]
  dsimp only [set_peft_model_state_dict]
  refine ⟨rfl, ?_, ?_⟩
  · refine ⟨_, rfl, ?_⟩
    intro k v
    simp only [List.mem_filter, List.mem_map, List.map_map, Function.comp]
    constructor
    · rintro ⟨⟨⟨k0, v0⟩, hkv0, hf⟩, hcont⟩
      simp only [List.mem_filter] at hkv0
      obtain ⟨hmem, hpre⟩ := hkv0
      rw [Prod.mk.injEq] at hf
      obtain ⟨hk, hv⟩ := hf
      subst hk
      subst hv
      refine ⟨?_, k0, hmem, hpre, rfl⟩
      simpa using hcont
    · rintro ⟨hk, k0, hmem, hpre, hkeq⟩
      subst hkeq
      refine ⟨⟨(k0, v), ?_, rfl⟩, ?_⟩
      · exact ⟨hmem, hpre⟩
      · simpa using hk
  · have hw : ∀ u : List String, (if u ≠ [] then [msg_unexpected_keys u] else []) ≠ [] ↔ u ≠ [] := by
      intro u
      split_ifs with h <;> simp [h]
    rw [hw, hnil]
    constructor
    · rintro ⟨k, hk⟩
      simp only [List.mem_map, List.mem_filter, List.map_map, Function.comp] at hk
      obtain ⟨⟨k1, v1⟩, hk1, hfst⟩ := hk
      obtain ⟨hkv1, hcont⟩ := hk1
      obtain ⟨⟨k0, v0⟩, hkv0, hf⟩ := hkv1
      obtain ⟨hmem, hpre⟩ := hkv0
      rw [Prod.mk.injEq] at hf
      obtain ⟨hfk, hfv⟩ := hf
      refine ⟨k0, v0, hmem, hpre, ?_⟩
      rw [hfk]
      simpa using hcont
    · rintro ⟨k0, v0, hmem, hpre, hnot⟩
      refine ⟨convert_key (pyReplace k0 (MODEL_SUBFOLDER ++ ".") ""), ?_⟩
      simp only [List.mem_map, List.mem_filter, List.map_map, Function.comp]
      refine ⟨(convert_key (pyReplace k0 (MODEL_SUBFOLDER ++ ".") ""), v0), ⟨⟨(k0, v0), ⟨hmem, hpre⟩, rfl⟩, ?_⟩, rfl⟩
      simpa using hnot

/-- Witness for the amended C4 on a concrete checkpoint holding one
denoiser-namespaced key and one unrelated key. -/
theorem C4_denoiser_slice_amended_witness :
    (load_lora_weights subEq refTransformer refTE1 refTE2 id false
        [("transformer.blocks.0.lora_A", 7), ("vae.x", 1)] [demoDenoiser]).error = none :=
  (C4_denoiser_slice_amended subEq refTransformer refTE1 refTE2 id
    [("transformer.blocks.0.lora_A", 7), ("vae.x", 1)] [demoDenoiser] []
    ⟨some demoDenoiser, none, none, some demoDenoiser⟩ demoDenoiser _ rfl
    (by decide) (by decide)).1

/-- Regrouping a flattened rectangular tensor into chunks of its row
count restores the tensor, given enough fuel. -/
theorem chunkRows_flatten (s : Nat) (hs : 0 < s) (t : Tensor3)
    (h : ∀ m ∈ t, m.length = s) :
    ∀ fuel, t.flatten.length ≤ fuel → chunkRows s fuel t.flatten = t := by
  induction t with
  | nil =>
    intro fuel hf
    cases fuel <;> rfl
  | cons m rest ih =>
    intro fuel hf
    have hm : m.length = s := h m (by simp)
    have hlen : (m :: rest).flatten.length = s + rest.flatten.length := by
      simp [hm]
    cases fuel with
    | zero =>
      rw [hlen] at hf
      omega
    | succ fuel =>
      have hne : (m :: rest).flatten = m ++ rest.flatten := by simp
      rw [hne]
      have hcons : ∃ c cs, m ++ rest.flatten = c :: cs := by
        cases hm' : m with
        | nil =>
          rw [hm'] at hm
          simp at hm
          omega
        | cons c cs => exact ⟨c, cs ++ rest.flatten, by simp⟩
      obtain ⟨c, cs, hccs⟩ := hcons
      rw [hccs]
      show (c :: cs).take s :: chunkRows s fuel ((c :: cs).drop s) = m :: rest
      rw [← hccs, List.take_left' hm, List.drop_left' hm]
      congr 1
      apply ih (fun x hx => h x (by simp [hx]))
      rw [hlen] at hf
      omega

/-- `x.repeat(1, 1, 1)` followed by `x.view(b, s, -1)` with `s` read
off the tensor's own shape is the identity on rectangular tensors with
a positive row count. -/
theorem view3_dim1_repeat_one (t : Tensor3) (s : Nat) (hs : 0 < s)
    (h : ∀ m ∈ t, m.length = s) :
    view3 (dim1 t) (repeatDim1 1 t) = t := by
  have hrep : repeatDim1 1 t = t := by
    simp [repeatDim1]
  rw [hrep]
  cases t with
  | nil => rfl
  | cons m rest =>
    have hd : dim1 (m :: rest) = s := by
      simp [dim1, h m (by simp)]
    rw [hd]
    unfold view3
    exact chunkRows_flatten s hs _ h _ le_rfl

/-- An element of a `zipWith` comes from elements of the two lists. -/
theorem mem_zipWith {α β γ : Type} {f : α → β → γ} {as : List α} {bs : List β} {c : γ}
    (h : c ∈ List.zipWith f as bs) : ∃ a ∈ as, ∃ b ∈ bs, c = f a b := by
  induction as generalizing bs with
  | nil => simp at h
  | cons a as ih =>
    cases bs with
    | nil => simp at h
    | cons b bs =>
      simp only [List.zipWith, List.mem_cons] at h
      rcases h with h | h
      · exact ⟨a, by simp, b, by simp, h⟩
      · obtain ⟨a', ha', b', hb', hc⟩ := ih h
        exact ⟨a', by simp [ha'], b', by simp [hb'], hc⟩

/-- Shape of the last-dimension concatenation of two rank-2 tensors. -/
theorem shape2_catLastDim2 (a b : Tensor2) (n w1 w2 : Nat)
    (ha : Shape2 a n w1) (hb : Shape2 b n w2) :
    Shape2 (catLastDim2 a b) n (w1 + w2) := by
  constructor
  · rw [catLastDim2, List.length_zipWith, ha.1, hb.1]
    omega
  · intro r hr
    obtain ⟨ra, hra, rb, hrb, rfl⟩ := mem_zipWith hr
    simp [ha.2 ra hra, hb.2 rb hrb]

/-- Shape of the last-dimension concatenation of two rank-3 tensors. -/
theorem shape3_catLastDim3 (a b : Tensor3) (n s w1 w2 : Nat)
    (ha : Shape3 a n s w1) (hb : Shape3 b n s w2) :
    Shape3 (catLastDim3 a b) n s (w1 + w2) := by
  constructor
  · rw [catLastDim3, List.length_zipWith, ha.1, hb.1]
    omega
  · intro m hm
    obtain ⟨ma, hma, mb, hmb, rfl⟩ := mem_zipWith hm
    exact shape2_catLastDim2 ma mb s w1 w2 (ha.2 ma hma) (hb.2 mb hmb)

/-- Shape of the sequence-dimension concatenation of two rank-3
tensors of equal hidden width. -/
theorem shape3_catSeqDim (a b : Tensor3) (n s1 s2 w : Nat)
    (ha : Shape3 a n s1 w) (hb : Shape3 b n s2 w) :
    Shape3 (catSeqDim a b) n (s1 + s2) w := by
  constructor
  · rw [catSeqDim, List.length_zipWith, ha.1, hb.1]
    omega
  · intro m hm
    obtain ⟨ma, hma, mb, hmb, rfl⟩ := mem_zipWith hm
    constructor
    · simp [(ha.2 ma hma).1, (hb.2 mb hmb).1]
    · intro r hr
      rcases List.mem_append.mp hr with hr | hr
      · exact (ha.2 ma hma).2 r hr
      · exact (hb.2 mb hmb).2 r hr

/-- Shape of the trailing-dimension pad: padding a width-`w` tensor by
`w' - w` (append zeros when `w ≤ w'`, truncate otherwise) yields
width `w'`. -/
theorem shape3_fpadLast (t : Tensor3) (n s w w' : Nat) (h : Shape3 t n s w) :
    Shape3 (fpadLast ((w' : Int) - (w : Int)) t) n s w' := by
  constructor
  · simp [fpadLast, h.1]
  · intro m' hm'
    simp only [fpadLast, List.mem_map] at hm'
    obtain ⟨m, hm, rfl⟩ := hm'
    have h2 := h.2 m hm
    constructor
    · simp [h2.1]
    · intro r' hr'
      simp only [List.mem_map] at hr'
      obtain ⟨r, hr, rfl⟩ := hr'
      have hlen := h2.2 r hr
      by_cases hd : (0 : Int) ≤ (w' : Int) - (w : Int)
      · rw [if_pos hd]
        simp only [List.length_append, List.length_replicate, hlen]
        omega
      · rw [if_neg hd]
        simp only [List.length_take, hlen]
        omega

/-- Shape of the attention-mask application. -/
theorem shape3_applyAttentionMask (e : Tensor3) (mask : Tensor2) (n s w : Nat)
    (he : Shape3 e n s w) (hm : Shape2 mask n s) :
    Shape3 (applyAttentionMask e mask) n s w := by
  constructor
  · rw [applyAttentionMask, List.length_zipWith, he.1, hm.1]
    omega
  · intro m' hm'
    obtain ⟨m, hmm, mr, hmr, rfl⟩ := mem_zipWith hm'
    constructor
    · rw [List.length_zipWith, (he.2 m hmm).1, hm.2 mr hmr]
      omega
    · intro r' hr'
      obtain ⟨r, hr, v, hv, rfl⟩ := mem_zipWith hr'
      simp [(he.2 m hmm).2 r hr]

/-- The T5 branch with one image per prompt: the repeat/view pair is
the identity, leaving the raw encoder output, masked elementwise when
zeroing is requested. -/
theorem encode_t5_one (te : T5Encoder) (tok : Tokenizer) (prompts : List String)
    (zp : Bool) (L : Nat) (hte : T5EncoderWF te) (htok : TokenizerWF tok) (hL : 0 < L) :
    encode_sd3_prompt_with_t5 te tok prompts 1 zp L =
      if zp then
        applyAttentionMask (te.encode (tok.inputIds prompts L)) (tok.attnMask prompts L)
      else te.encode (tok.inputIds prompts L) := by
  have hrows : ∀ m ∈ te.encode (tok.inputIds prompts L), m.length = L := by
    intro m hm
    exact ((hte.shape _ L (htok.ids_row prompts L)).2 m hm).1
  simp only [encode_sd3_prompt_with_t5]
  rw [view3_dim1_repeat_one _ L hL hrows]

/-- The CLIP branch with one image per prompt: the repeat/view pair is
the identity, leaving the raw penultimate hidden state and the pooled
output. -/
theorem encode_clip_one (enc : CLIPEncoder) (tok : Tokenizer) (prompts : List String)
    (L : Nat) (henc : CLIPEncoderWF enc) (htok : TokenizerWF tok) (hL : 0 < L) :
    encode_sd3_prompt_with_clip enc tok prompts 1 L =
      (enc.hiddenPenult (tok.inputIds prompts L), enc.pooled (tok.inputIds prompts L)) := by
  have hrows : ∀ m ∈ enc.hiddenPenult (tok.inputIds prompts L), m.length = L := by
    intro m hm
    exact ((henc.hidden_shape _ L (htok.ids_row prompts L)).2 m hm).1
  simp only [encode_sd3_prompt_with_clip]
  rw [view3_dim1_repeat_one _ L hL hrows]

/-- The last dimension read off a nonempty, nondegenerate rectangular
tensor is its width. -/
theorem dim2_of_shape3 (t : Tensor3) (n s w : Nat) (h : Shape3 t n s w)
    (hn : 0 < n) (hs : 0 < s) : dim2 t = w := by
  cases t with
  | nil =>
    rw [← h.1] at hn
    simp at hn
  | cons m rest =>
    have h2 := h.2 m (by simp)
    cases m with
    | nil =>
      rw [← h2.1] at hs
      simp at hs
    | cons r rows =>
      simpa [dim2] using h2.2 r (by simp)

/-- Scaling a row elementwise scales its (default-0) entries. -/
theorem getD_map_mul (r : Tensor1) (v : Int) (k : Nat) :
    (r.map (fun x => x * v)).getD k 0 = r.getD k 0 * v := by
  induction r generalizing k with
  | nil => simp
  | cons x xs ih =>
    cases k with
    | zero => simp
    | succ k => simpa using ih k

/-- Entry of one matrix of the mask application: the original entry
times the mask value at that row (defaults read as 0). -/
theorem getD2_mask_matrix (m : Tensor2) (mr : Tensor1) (j k : Nat) :
    ((List.zipWith (fun row v => row.map (fun x => x * v)) m mr).getD j []).getD k 0 =
      (m.getD j []).getD k 0 * mr.getD j 0 := by
  induction m generalizing mr j with
  | nil => cases mr <;> cases j <;> simp
  | cons row rows ih =>
    cases mr with
    | nil => cases j <;> simp
    | cons v vs =>
      cases j with
      | zero => simpa using getD_map_mul row v k
      | succ j => simpa using ih vs j

/-- Entry of the mask application: the original entry times the mask
value at that batch element and row (defaults read as 0). -/
theorem getD3_applyAttentionMask (e : Tensor3) (mask : Tensor2) (i j k : Nat) :
    getD3 (applyAttentionMask e mask) i j k =
      getD3 e i j k * ((mask.getD i []).getD j 0) := by
  induction e generalizing mask i with
  | nil => simp [applyAttentionMask, getD3]
  | cons m rest ih =>
    cases mask with
    | nil => simp [applyAttentionMask, getD3]
    | cons mr mrest =>
      cases i with
      | zero => simpa [applyAttentionMask, getD3] using getD2_mask_matrix m mr j k
      | succ i => simpa [applyAttentionMask, getD3] using ih mrest i

/-- C2: in the T5 branch of prompt encoding (one image per prompt, as
`_encode_prompts` fixes), attention-mask zeroing is applied when the
configuration's `t5_padding` is `"zero"` and skipped for any other
value; with zeroing enabled, every embedding entry at a position at or
beyond the prompt's true (non-padded) token count — where the
tokenizer's attention mask is 0 — is exactly zero, and with it
disabled the result is exactly the raw encoder output. -/
theorem C2_t5_mask_zeroing (te : T5Encoder) (tok : Tokenizer) (cfg : EncodeConfig)
    (prompts : List String) (trueCount : Nat → Nat)
    (hte : T5EncoderWF te) (htok : TokenizerWF tok)
    (hL : 0 < cfg.tokenizer_max_length)
    (hmask : ∀ i j, trueCount i ≤ j →
      ((tok.attnMask prompts cfg.tokenizer_max_length).getD i []).getD j 0 = 0) :
    (cfg.t5_padding = "zero" →
      ∀ i j k, trueCount i ≤ j →
        getD3 (encode_sd3_prompt_with_t5 te tok prompts 1 (zero_padding_tokens_of cfg)
          cfg.tokenizer_max_length) i j k = 0) ∧
    (cfg.t5_padding ≠ "zero" →
      encode_sd3_prompt_with_t5 te tok prompts 1 (zero_padding_tokens_of cfg)
          cfg.tokenizer_max_length
        = te.encode (tok.inputIds prompts cfg.tokenizer_max_length)) := by
  constructor
  · intro hz i j k hjk
    have hzp : zero_padding_tokens_of cfg = true := by
      simp [zero_padding_tokens_of, hz]
    rw [hzp, encode_t5_one te tok prompts true cfg.tokenizer_max_length hte htok hL]
    rw [if_pos rfl, getD3_applyAttentionMask, hmask i j hjk, mul_zero]
  · intro hz
    have hzp : zero_padding_tokens_of cfg = false := by
      simp [zero_padding_tokens_of, hz]
    rw [hzp, encode_t5_one te tok prompts false cfg.tokenizer_max_length hte htok hL]
    simp

/-- Entries of a zero-replicate row are zero at every index. -/
theorem getD_replicate_zero (n k : Nat) : (List.replicate n (0 : Int)).getD k 0 = 0 := by
  rcases Nat.lt_or_ge k n with h | h
  · rw [List.getD_eq_getElem _ _ (by simpa using h)]
    simp
  · rw [List.getD_eq_default _ _ (by simpa using h)]

/-- A padded (or truncated) row reads zero at and beyond its original
length. -/
theorem getD_pad_row (row : Tensor1) (d : Int) (k : Nat) (hk : row.length ≤ k) :
    (if 0 ≤ d then row ++ List.replicate d.toNat 0
     else row.take (row.length - (-d).toNat)).getD k 0 = 0 := by
  split_ifs with hd
  · rw [List.getD_append_right _ _ _ _ hk]
    exact getD_replicate_zero _ _
  · exact List.getD_eq_default _ _ (le_trans (by simp) hk)

/-- Matrix-level version of `getD_pad_row` for the pad of a
rectangular matrix of width `w`. -/
theorem getD2_pad_matrix (m : Tensor2) (w : Nat) (hm : ∀ r ∈ m, r.length = w)
    (d : Int) (j k : Nat) (hk : w ≤ k) :
    ((m.map (fun row => if 0 ≤ d then row ++ List.replicate d.toNat 0
        else row.take (row.length - (-d).toNat))).getD j []).getD k 0 = 0 := by
  induction m generalizing j with
  | nil => simp
  | cons r rs ih =>
    cases j with
    | zero =>
      simp only [List.map_cons, List.getD_cons_zero]
      exact getD_pad_row r d k (by rw [hm r (by simp)]; exact hk)
    | succ j => simpa using ih (fun x hx => hm x (by simp [hx])) j

/-- Every entry of a padded width-`w` rectangular tensor at or beyond
`w` reads zero. -/
theorem getD3_fpadLast_zero (t : Tensor3) (w : Nat) (d : Int) (i j k : Nat)
    (hw : ∀ m ∈ t, ∀ r ∈ m, r.length = w) (hk : w ≤ k) :
    getD3 (fpadLast d t) i j k = 0 := by
  induction t generalizing i with
  | nil => simp [fpadLast, getD3]
  | cons m rest ih =>
    cases i with
    | zero =>
      simp only [fpadLast, getD3, List.map_cons, List.getD_cons_zero]
      exact getD2_pad_matrix m w (hw m (by simp)) d j k hk
    | succ i =>
      simpa [fpadLast, getD3] using ih i (fun x hx => hw x (by simp [hx]))

/-- Reading a sequence-concatenated tensor within the first operand's
rows gives the first operand's entry. -/
theorem getD3_catSeqDim_left (a c : Tensor3) (i j k : Nat)
    (hlen : a.length = c.length)
    (hi : i < a.length) (hj : j < (a.getD i []).length) :
    getD3 (catSeqDim a c) i j k = getD3 a i j k := by
  induction a generalizing c i with
  | nil => simp at hi
  | cons m rest ih =>
    cases c with
    | nil => simp at hlen
    | cons mc restc =>
      cases i with
      | zero =>
        simp only [List.getD_cons_zero] at hj
        simp only [catSeqDim, List.zipWith, getD3, List.getD_cons_zero]
        rw [List.getD_append _ _ _ _ hj]
      | succ i =>
        have hlen' : rest.length = restc.length := by
          simpa using hlen
        have hi' : i < rest.length := by
          simpa using hi
        have hj' : j < (rest.getD i []).length := by
          simpa using hj
        simpa [catSeqDim, getD3] using ih restc i hlen' hi' hj'

/-- Row read off a rectangular tensor within its batch has the
tensor's row count as its length. -/
theorem shape3_row_len (t : Tensor3) (n s w : Nat) (h : Shape3 t n s w)
    (i : Nat) (hi : i < n) : (t.getD i []).length = s := by
  have hi' : i < t.length := by
    rw [h.1]
    exact hi
  rw [List.getD_eq_getElem _ _ hi']
  exact (h.2 _ (t.getElem_mem hi')).1

/-- C1: for every non-empty prompt list, well-formed encoder stack and
positive configured T5 length, `_encode_prompts` returns
`prompt_embeds` of shape
`[len(prompts), 77 + tokenizer_max_length, t5_width]` with hidden
width the T5 encoder's native hidden width and the CLIP branch
zero-padded up to it (every entry of the 77 CLIP rows at or beyond
the combined CLIP width reads zero), and `pooled_prompt_embeds` whose
last dimension is CLIP-L pooled width plus CLIP-G pooled width,
independent of the T5 configuration. -/
theorem C1_encode_prompts_shape (S : SD3TextStack) (cfg : EncodeConfig)
    (prompts : List String)
    (ht1 : TokenizerWF S.tokenizer) (ht2 : TokenizerWF S.tokenizer_2)
    (ht3 : TokenizerWF S.tokenizer_3)
    (he1 : CLIPEncoderWF S.text_encoder) (he2 : CLIPEncoderWF S.text_encoder_2)
    (he3 : T5EncoderWF S.text_encoder_3)
    (hne : prompts ≠ []) (hL : 0 < cfg.tokenizer_max_length) :
    Shape3 (encode_prompts S cfg prompts).1 prompts.length
      (77 + cfg.tokenizer_max_length) S.text_encoder_3.width ∧
    Shape2 (encode_prompts S cfg prompts).2 prompts.length
      (S.text_encoder.poolWidth + S.text_encoder_2.poolWidth) ∧
    (∀ i j k, i < prompts.length → j < 77 →
      S.text_encoder.width + S.text_encoder_2.width ≤ k →
      getD3 (encode_prompts S cfg prompts).1 i j k = 0) := by
  have hb : 0 < prompts.length := List.length_pos.mpr hne
  have hpe1 : Shape3 (S.text_encoder.hiddenPenult (S.tokenizer.inputIds prompts 77))
      prompts.length 77 S.text_encoder.width := by
    have h := he1.hidden_shape _ 77 (ht1.ids_row prompts 77)
    rwa [ht1.ids_len prompts 77] at h
  have hpe2 : Shape3 (S.text_encoder_2.hiddenPenult (S.tokenizer_2.inputIds prompts 77))
      prompts.length 77 S.text_encoder_2.width := by
    have h := he2.hidden_shape _ 77 (ht2.ids_row prompts 77)
    rwa [ht2.ids_len prompts 77] at h
  have hpp1 : Shape2 (S.text_encoder.pooled (S.tokenizer.inputIds prompts 77))
      prompts.length S.text_encoder.poolWidth := by
    have h := he1.pooled_shape (S.tokenizer.inputIds prompts 77)
    rwa [ht1.ids_len prompts 77] at h
  have hpp2 : Shape2 (S.text_encoder_2.pooled (S.tokenizer_2.inputIds prompts 77))
      prompts.length S.text_encoder_2.poolWidth := by
    have h := he2.pooled_shape (S.tokenizer_2.inputIds prompts 77)
    rwa [ht2.ids_len prompts 77] at h
  have hraw : Shape3 (S.text_encoder_3.encode (S.tokenizer_3.inputIds prompts
      cfg.tokenizer_max_length)) prompts.length cfg.tokenizer_max_length
      S.text_encoder_3.width := by
    have h := he3.shape _ cfg.tokenizer_max_length (ht3.ids_row prompts cfg.tokenizer_max_length)
    rwa [ht3.ids_len prompts cfg.tokenizer_max_length] at h
  have hmaskshape : Shape2 (S.tokenizer_3.attnMask prompts cfg.tokenizer_max_length)
      prompts.length cfg.tokenizer_max_length :=
    ⟨ht3.mask_len prompts cfg.tokenizer_max_length,
     ht3.mask_row prompts cfg.tokenizer_max_length⟩
  have ht5 : Shape3 (if zero_padding_tokens_of cfg = true then
      applyAttentionMask
        (S.text_encoder_3.encode (S.tokenizer_3.inputIds prompts cfg.tokenizer_max_length))
        (S.tokenizer_3.attnMask prompts cfg.tokenizer_max_length)
      else S.text_encoder_3.encode (S.tokenizer_3.inputIds prompts cfg.tokenizer_max_length))
      prompts.length cfg.tokenizer_max_length S.text_encoder_3.width := by
    cases hzp : zero_padding_tokens_of cfg
    · simpa using hraw
    · simpa using shape3_applyAttentionMask _ _ _ _ _ hraw hmaskshape
  have hclip : Shape3 (catLastDim3
      (S.text_encoder.hiddenPenult (S.tokenizer.inputIds prompts 77))
      (S.text_encoder_2.hiddenPenult (S.tokenizer_2.inputIds prompts 77)))
      prompts.length 77 (S.text_encoder.width + S.text_encoder_2.width) :=
    shape3_catLastDim3 _ _ _ _ _ _ hpe1 hpe2
  simp only [encode_prompts]
  rw [encode_clip_one S.text_encoder S.tokenizer prompts 77 he1 ht1 (by norm_num)]
  rw [encode_clip_one S.text_encoder_2 S.tokenizer_2 prompts 77 he2 ht2 (by norm_num)]
  rw [encode_t5_one S.text_encoder_3 S.tokenizer_3 prompts _ cfg.tokenizer_max_length
    he3 ht3 hL]
  dsimp only
  rw [dim2_of_shape3 _ _ _ _ ht5 hb hL,
    dim2_of_shape3 _ _ _ _ hclip hb (by norm_num)]
  refine ⟨?_, ?_, ?_⟩
  · exact shape3_catSeqDim _ _ _ _ _ _ (shape3_fpadLast _ _ _ _ _ hclip) ht5
  · exact shape2_catLastDim2 _ _ _ _ _ hpp1 hpp2
  · intro i j k hi hj hk
    have hpad := shape3_fpadLast _ _ _ _ S.text_encoder_3.width hclip
    rw [getD3_catSeqDim_left _ _ i j k (by rw [hpad.1, ht5.1]) (by rw [hpad.1]; exact hi)
      (by rw [shape3_row_len _ _ _ _ hpad i hi]; exact hj)]
    exact getD3_fpadLast_zero _ _ _ i j k (fun m hm r hr => (hclip.2 m hm).2 r hr) hk

/-- The demo tokenizer satisfies the tokenizer contract. -/
theorem demoTokenizer_wf : TokenizerWF demoTokenizer := by
  refine ⟨?_, ?_, ?_, ?_⟩ <;> intro ps L
  · simp [demoTokenizer]
  · intro r hr
    simp only [demoTokenizer, List.mem_map] at hr
    obtain ⟨a, ha, rfl⟩ := hr
    simp
  · simp [demoTokenizer]
  · intro r hr
    simp only [demoTokenizer, List.mem_map] at hr
    obtain ⟨a, ha, rfl⟩ := hr
    simp
    omega

/-- The demo CLIP encoders satisfy the CLIP contract. -/
theorem demoCLIP_wf (w p : Nat) : CLIPEncoderWF (demoCLIP w p) := by
  constructor
  · intro ids L hrow
    constructor
    · simp [demoCLIP]
    · intro m hm
      simp only [demoCLIP, List.mem_map] at hm
      obtain ⟨r, hr, rfl⟩ := hm
      constructor
      · simp [hrow r hr]
      · intro row hrow2
        simp only [List.mem_map] at hrow2
        obtain ⟨a, ha, rfl⟩ := hrow2
        simp [demoCLIP]
  · intro ids
    constructor
    · simp [demoCLIP]
    · intro r hr
      simp only [demoCLIP, List.mem_map] at hr
      obtain ⟨a, ha, rfl⟩ := hr
      simp [demoCLIP]

/-- The demo T5 encoder satisfies the T5 contract. -/
theorem demoT5_wf (w : Nat) : T5EncoderWF (demoT5 w) := by
  constructor
  intro ids L hrow
  constructor
  · simp [demoT5]
  · intro m hm
    simp only [demoT5, List.mem_map] at hm
    obtain ⟨r, hr, rfl⟩ := hm
    constructor
    · simp [hrow r hr]
    · intro row hrow2
      simp only [List.mem_map] at hrow2
      obtain ⟨a, ha, rfl⟩ := hrow2
      simp [demoT5]

/-- Witness for C1 on the demo stack: one prompt, T5 max length 4,
CLIP widths 2 and 3, pooled widths 3 and 4, T5 width 6; the resulting
shapes are `[1, 81, 6]` and `[1, 7]`. -/
theorem C1_encode_prompts_shape_witness :
    Shape3 (encode_prompts demoStack ⟨"zero", 4⟩ ["a"]).1 1 81 6 ∧
    Shape2 (encode_prompts demoStack ⟨"zero", 4⟩ ["a"]).2 1 7 :=
  ⟨(C1_encode_prompts_shape demoStack ⟨"zero", 4⟩ ["a"] demoTokenizer_wf demoTokenizer_wf
      demoTokenizer_wf (demoCLIP_wf 2 3) (demoCLIP_wf 3 4) (demoT5_wf 6)
      (by decide) (by norm_num)).1,
   (C1_encode_prompts_shape demoStack ⟨"zero", 4⟩ ["a"] demoTokenizer_wf demoTokenizer_wf
      demoTokenizer_wf (demoCLIP_wf 2 3) (demoCLIP_wf 3 4) (demoT5_wf 6)
      (by decide) (by norm_num)).2.1⟩

/-- Witness for C2 on the demo T5 encoder and tokenizer: with
`t5_padding = "zero"` the entry at the first padded position is zero;
with another padding mode the output equals the raw encoder output. -/
theorem C2_t5_mask_zeroing_witness :
    getD3 (encode_sd3_prompt_with_t5 (demoT5 6) demoTokenizer ["a"] 1
      (zero_padding_tokens_of ⟨"zero", 4⟩) 4) 0 1 0 = 0 ∧
    encode_sd3_prompt_with_t5 (demoT5 6) demoTokenizer ["a"] 1
      (zero_padding_tokens_of ⟨"unmodified", 4⟩) 4
      = (demoT5 6).encode (demoTokenizer.inputIds ["a"] 4) := by
  have hmask : ∀ cfgL : Nat, cfgL = 4 → ∀ i j, 1 ≤ j →
      ((demoTokenizer.attnMask ["a"] cfgL).getD i []).getD j 0 = 0 := by
    intro cfgL hL i j hj
    subst hL
    cases i with
    | zero =>
      match j, hj with
      | j + 1, _ =>
        show (((["a"].map fun _ =>
          List.replicate (min 1 4) (1 : Int) ++ List.replicate (4 - 1) 0).getD 0 []).getD
            (j + 1) 0) = 0
        rcases j with _ | _ | _ | j <;> simp [List.getD]
    | succ i =>
      simp [demoTokenizer]
  constructor
  · exact (C2_t5_mask_zeroing (demoT5 6) demoTokenizer ⟨"zero", 4⟩ ["a"] (fun _ => 1)
      (demoT5_wf 6) demoTokenizer_wf (by norm_num) (hmask 4 rfl)).1 rfl 0 1 0 (by norm_num)
  · exact (C2_t5_mask_zeroing (demoT5 6) demoTokenizer ⟨"unmodified", 4⟩ ["a"] (fun _ => 1)
      (demoT5_wf 6) demoTokenizer_wf (by norm_num) (hmask 4 rfl)).2 (by decide)

end SD3Spec
